import Mathlib

/-!
Verification of the Leonard agent-orchestration core against its specification.

This file shallowly embeds the components of the repository that the spec
claims are about:

* `core/leonard/tools/file_ops.py` and `core/leonard/tools/verifier.py`
  (the verified filesystem executor) over an explicit filesystem model;
* `core/leonard/tools/organizer.py` (the legacy organize tool result);
* `core/leonard/utils/action_guard.py` (the hallucination guard);
* `core/leonard/context/entities.py`, `conversation.py` and `resolver.py`
  (entity store, reference resolver, pending-action protocol);
* `core/leonard/engine/orchestrator.py` (`_handle_pending_action`,
  `_parse_ordinal_selection`);
* `core/leonard/engine/router.py` (routing-response parsing and fallback).

Modelling conventions:

* The filesystem is a finite map from absolute canonical path strings to file
  contents, together with a list of directory paths.  Contents are modelled as
  strings; sizes are character counts.
* OS path resolution (`Path.expanduser().resolve()` / `os.path.realpath`) is
  an oracle parameter `resolveP : String → String`; the user home directory is
  a parameter `home : String`.
* Python `re` library calls are oracle parameters (`reTest`, `reGroup`, …):
  the surrounding control flow is translated faithfully, the regex engine
  itself is treated as an external library, like the OS.
* OS errors that the source catches with a blanket `except Exception` (e.g.
  `os.replace` onto a directory, `shutil.copytree` onto an existing path) are
  modelled by explicit guards returning the source's generic verification
  failure; temp files leaked on such failures are not modelled.
* Floats (scores, confidence) are modelled as rationals.
-/

namespace Leonard

/-! ## String primitives

Character-list implementations of the Python string operations used by the
source (`split`, `strip`, `lower`, `replace`, prefix/suffix/substring
tests).  They mirror core `String` functions but compute by plain list
recursion, so that concrete witnesses evaluate inside the kernel. -/

/-- Worker for `pySplitOn` (fuel-driven scan; the fuel is always
sufficient). -/
def splitOnGo (sep : List Char) : Nat → List Char → List Char → List (List Char)
  | 0, l, acc => [acc.reverse ++ l]
  | _ + 1, [], acc => [acc.reverse]
  | fuel + 1, c :: t, acc =>
    if sep.isPrefixOf (c :: t) then
      acc.reverse :: splitOnGo sep fuel ((c :: t).drop sep.length) []
    else splitOnGo sep fuel t (c :: acc)

/-- Python `s.split(sep)` for a non-empty separator (and Lean's
`String.splitOn` semantics). -/
def pySplitOn (s sep : String) : List String :=
  if sep.data.isEmpty then [s]
  else (splitOnGo sep.data (s.data.length + 1) s.data []).map String.mk

/-- Join with a separator (`sep.join(xs)` / `String.intercalate`). -/
def strJoin (sep : String) : List String → String
  | [] => ""
  | x :: rest => rest.foldl (fun acc y => acc ++ sep ++ y) x

/-- Python `str.strip()`. -/
def pyStrip (s : String) : String :=
  String.mk (((s.data.dropWhile Char.isWhitespace).reverse.dropWhile
    Char.isWhitespace).reverse)

/-- Python `str.replace(a, b)`. -/
def pyReplace (s a b : String) : String :=
  strJoin b (pySplitOn s a)

/-- Prefix test (`str.startswith`). -/
def strStartsWith (s pre : String) : Bool :=
  pre.data.isPrefixOf s.data

/-- Suffix test (`str.endswith`). -/
def strEndsWith (s suf : String) : Bool :=
  suf.data.isSuffixOf s.data

/-- Drop the first `n` characters (`s[n:]`). -/
def strDrop (s : String) (n : Nat) : String :=
  String.mk (s.data.drop n)

/-- Worker for the substring test. -/
def containsSubAux (needle : List Char) : List Char → Bool
  | [] => needle.isEmpty
  | c :: t => needle.isPrefixOf (c :: t) || containsSubAux needle t

/-- Substring test, Python `needle in hay`. -/
def strContainsSub (hay needle : String) : Bool :=
  containsSubAux needle.data hay.data

/-! ## Path helpers -/

/-- Non-empty components of an absolute path string. -/
def pathParts (p : String) : List String :=
  (pySplitOn p "/").filter (fun c => c ≠ "")

/-- Parent directory of a path (`Path.parent` / `os.path.dirname` on
canonical absolute paths). -/
def parentOf (p : String) : String :=
  let cs := pathParts p
  if cs.length ≤ 1 then "/" else "/" ++ strJoin "/" cs.dropLast

/-- Final component of a path (`Path.name` / `os.path.basename`). -/
def baseName (p : String) : String :=
  (pathParts p).getLastD p

/-- All prefixes of a path, shortest first: `/a/b/c ↦ [/a, /a/b, /a/b/c]`. -/
def prefixPaths (p : String) : List String :=
  let cs := pathParts p
  (List.range cs.length).map (fun i => "/" ++ strJoin "/" (cs.take (i + 1)))

/-- Strict ancestors of a path (its prefixes, excluding the path itself). -/
def strictAncestors (p : String) : List String :=
  (prefixPaths p).dropLast

/-- `os.path.join base name` for a simple (relative, non-empty) name. -/
def joinPath (base n : String) : String :=
  if base == "/" then "/" ++ n else base ++ "/" ++ n

/-! ## Filesystem model -/

/-- A filesystem state: regular files (path ↦ contents) and directories. -/
structure FS where
  files : List (String × String)
  dirs : List String
deriving Repr, DecidableEq

namespace FS

def isFile (fs : FS) (p : String) : Bool := (fs.files.lookup p).isSome

def isDir (fs : FS) (p : String) : Bool := fs.dirs.contains p

/-- `Path.exists()` in the model. -/
def pexists (fs : FS) (p : String) : Bool := fs.isFile p || fs.isDir p

/-- `Path.read_bytes()` / `read_text` in the model. -/
def readF (fs : FS) (p : String) : Option String := fs.files.lookup p

/-- `Path.stat().st_size` for files (character count in the model). -/
def fileSize (fs : FS) (p : String) : Nat :=
  ((fs.files.lookup p).map String.length).getD 0

/-- Create or overwrite a regular file. -/
def setFile (fs : FS) (p c : String) : FS :=
  { fs with files := (p, c) :: fs.files.filter (fun e => e.1 != p) }

/-- `Path.unlink()`: remove a regular file. -/
def removeFile (fs : FS) (p : String) : FS :=
  { fs with files := fs.files.filter (fun e => e.1 != p) }

/-- `shutil.rmtree`: remove a directory and everything below it. -/
def removeTree (fs : FS) (p : String) : FS :=
  { files := fs.files.filter (fun e => e.1 != p && !(strStartsWith e.1 (p ++ "/"))),
    dirs := fs.dirs.filter (fun d => d != p && !(strStartsWith d (p ++ "/"))) }

/-- `Path.mkdir(parents=True, exist_ok=True)`: create `dir` and all its
ancestors. -/
def mkdirParents (fs : FS) (dir : String) : FS :=
  { fs with
    dirs := (prefixPaths dir).foldl
      (fun ds d => if ds.contains d then ds else ds ++ [d]) fs.dirs }

/-- Rename `s` if it is `src` or lies below `src`, rebasing onto `dst`. -/
def renameKey (src dst s : String) : String :=
  if s == src then dst
  else if strStartsWith s (src ++ "/") then
    dst ++ "/" ++ strDrop s (src.length + 1)
  else s

/-- `shutil.move` of a directory: rename the subtree rooted at `src`. -/
def moveTree (fs : FS) (src dst : String) : FS :=
  { files := fs.files.map (fun e => (renameKey src dst e.1, e.2)),
    dirs := fs.dirs.map (renameKey src dst) }

/-- `shutil.copytree`: duplicate the subtree rooted at `src` at `dst`. -/
def copyTree (fs : FS) (src dst : String) : FS :=
  { files := fs.files ++
      (fs.files.filter (fun e => strStartsWith e.1 (src ++ "/"))).map
        (fun e => (renameKey src dst e.1, e.2)),
    dirs := (fs.dirs ++ [dst]) ++
      (fs.dirs.filter (fun d => strStartsWith d (src ++ "/"))).map (renameKey src dst) }

end FS

/-- Entries of a directory: paths in the filesystem whose parent is `dir`
(`Path.iterdir()`, before any ordering). -/
def childPaths (fs : FS) (dir : String) : List String :=
  ((fs.files.map Prod.fst) ++ fs.dirs).filter
    (fun q => parentOf q == dir && q != dir)

/-! ## ToolResult (`tools/base.py`) -/

/-- One listed directory entry (`list_directory` output item). -/
structure ListItem where
  name : String
  type : String
  size_bytes : Nat
deriving Repr, DecidableEq

/-- Tagged model of the duck-typed `ToolResult.output` payloads. -/
inductive ToolOutput where
  | noOutput
  | textOutput (text : String)
  | readOut (path : String) (lines : List String)
  | listOut (path : String) (items : List ListItem)
  | writeOut (path : String) (bytes_written total_bytes : Nat)
  | moveOut (source destination : String)
  | copyOut (source destination : String)
  | deleteOut (path : String)
  | deletePatternOut (directory pattern : String) (deleted failed : List String)
  | createOut (path : String)
  -- `matches` in the source (keyword in Lean)
  | searchOut (found : List String) (count : Nat) (truncated : Bool)
deriving Repr, DecidableEq

/-- `VerificationResult` from `tools/base.py`. -/
structure VerificationResult where
  passed : Bool
  details : String
deriving Repr, DecidableEq

/-- `ToolResult` dataclass from `tools/base.py`.  `status` is `"success"` or
`"error"`; `verification` is optional exactly as in the source. -/
structure ToolResult where
  status : String
  action : Option String
  output : ToolOutput
  error : Option String := none
  before_paths : List String := []
  after_paths : List String := []
  changed : List String := []
  verification : Option VerificationResult := none
  verification_passed : Option Bool := none
  verification_details : Option String := none
  display_summary_user : Option String := none
  message_internal : Option String := none
  message_user : Option String := none
deriving Repr, DecidableEq

/-- `ToolResult.success` property. -/
def ToolResult.success (r : ToolResult) : Bool := r.status == "success"

/-! ## FileOperations (`tools/file_ops.py`) -/

/-- `ALLOWED_ROOTS`: user home and `/tmp`. -/
def allowed_roots (home : String) : List String := [home, "/tmp"]

/-- `PROTECTED_PATHS`. -/
def protected_paths (home : String) : List String :=
  ["/", "/Users", "/System", "/Library", "/Applications", home]

/-- `_ensure_allowed`: resolve the path and require it to be inside an
allowed root; `none` models the raised `PermissionError`. -/
def ensure_allowed (resolveP : String → String) (home : String) (p : String) :
    Option String :=
  let resolved := resolveP p
  if (allowed_roots home).any
      (fun root => resolved == root || strStartsWith resolved (root ++ "/"))
  then some resolved else none

/-- Text of the `PermissionError` raised by `_ensure_allowed`. -/
def outsideRootsMsg (resolved : String) : String :=
  "Path " ++ resolved ++ " is outside allowed roots"

/-- `_permission_denied_message` (with the exception text appended). -/
def permission_denied_message (path : String) (exc : Option String) : String :=
  let suffix := match exc with
    | some e => " (" ++ e ++ ")"
    | none => ""
  "macOS blocked access to " ++ path ++
    ". Grant Full Disk Access to Leonard (or the terminal) and retry." ++ suffix

/-- `_verification_failure`. -/
def verification_failure (details action : String) (changed : List String) :
    ToolResult :=
  { status := "error"
    action := some action
    output := ToolOutput.noOutput
    error := some details
    before_paths := changed
    after_paths := []
    changed := changed
    verification := some ⟨false, details⟩
    verification_passed := some false
    verification_details := some details
    message_user := some details
    message_internal := some details }

/-! ### FilesystemVerifier (`tools/verifier.py`) -/

/-- `FilesystemVerifier.verify_write`. -/
def verify_write (fs : FS) (path expected : String) : VerificationResult :=
  if !fs.pexists path then ⟨false, path ++ " missing after write"⟩
  else
    match fs.readF path with
    | none => ⟨false, "Could not verify contents"⟩
    | some actual =>
      if actual ≠ expected then ⟨false, path ++ " contents differ after write"⟩
      else ⟨true, path ++ " verified (" ++ toString expected.length ++ " bytes)"⟩

/-- `FilesystemVerifier.verify_move`. -/
def verify_move (fs : FS) (source destination : String)
    (expected_size : Option Nat) : VerificationResult :=
  if fs.pexists source then ⟨false, "Source still present after move: " ++ source⟩
  else if !fs.pexists destination then
    ⟨false, "Destination missing after move: " ++ destination⟩
  else
    match expected_size with
    | some n =>
      if fs.isFile destination && fs.fileSize destination ≠ n then
        ⟨false, "Destination size mismatch (" ++ toString (fs.fileSize destination)
          ++ " vs " ++ toString n ++ ")"⟩
      else ⟨true, "Move verified"⟩
    | none => ⟨true, "Move verified"⟩

/-- `FilesystemVerifier.verify_copy`. -/
def verify_copy (fs : FS) (source destination : String)
    (expected_size : Option Nat) : VerificationResult :=
  if !fs.pexists destination then
    ⟨false, "Destination missing after copy: " ++ destination⟩
  else if !fs.pexists source then
    ⟨false, "Source disappeared during copy: " ++ source⟩
  else
    match expected_size with
    | some n =>
      if fs.isFile destination && fs.fileSize destination ≠ n then
        ⟨false, "Destination size mismatch (" ++ toString (fs.fileSize destination)
          ++ " vs " ++ toString n ++ ")"⟩
      else ⟨true, "Copy verified"⟩
    | none => ⟨true, "Copy verified"⟩

/-- `FilesystemVerifier.verify_delete`. -/
def verify_delete (fs : FS) (target : String) : VerificationResult :=
  ⟨!fs.pexists target, target ++ " removed"⟩

/-- `FilesystemVerifier.verify_create_dir`. -/
def verify_create_dir (fs : FS) (target : String) : VerificationResult :=
  ⟨fs.pexists target && fs.isDir target, target ++ " created"⟩

/-! ### Operations

Each operation takes the filesystem as explicit state and returns the
`ToolResult` together with the filesystem at the moment of return. -/

/-- Python line iteration of a file body (`rstrip("\n")` applied per line). -/
def pyLines (content : String) : List String :=
  if content == "" then []
  else if strEndsWith content "\n" then
    pySplitOn (String.mk content.data.dropLast) "\n"
  else pySplitOn content "\n"

variable (resolveP : String → String) (home : String)

/-- `FileOperations.read_file`. -/
def read_file (fs : FS) (path : String) (max_lines : Nat := 100)
    (max_bytes : Nat := 10 * 1024 * 1024) : ToolResult × FS :=
  match ensure_allowed resolveP home path with
  | none =>
    (verification_failure
      (permission_denied_message path (some (outsideRootsMsg (resolveP path))))
      "read" [path], fs)
  | some file_path =>
    if !fs.pexists file_path then
      (verification_failure ("File not found: " ++ file_path) "read" [file_path], fs)
    else if !fs.isFile file_path then
      (verification_failure ("Not a file: " ++ file_path) "read" [file_path], fs)
    else if fs.fileSize file_path > max_bytes then
      (verification_failure ("File too large") "read" [file_path], fs)
    else
      let content := (fs.readF file_path).getD ""
      let ls := pyLines content
      let lines := if ls.length > max_lines then
          ls.take max_lines ++
            ["... (truncated at " ++ toString max_lines ++ " lines)"]
        else ls
      ({ status := "success"
         action := some "read"
         output := ToolOutput.readOut file_path lines
         before_paths := []
         after_paths := []
         changed := []
         verification := some ⟨true, "Read-only operation"⟩
         verification_passed := some true
         verification_details := some "Read-only operation"
         message_user := some ("Read " ++ toString lines.length ++ " lines from "
           ++ file_path) }, fs)

/-- Comparator used for `sorted(dir_path.iterdir())`: Python compares the
full `Path` strings; restricted to entries of one directory (a common
prefix) this coincides with comparing the entry names, which is what we
sort by.  The comparison is a lexicographic byte-order comparison on the
character lists; it agrees with the string order `≤` (proved below) while
remaining kernel-computable. -/
def listLeB : List Char → List Char → Bool
  | [], _ => true
  | _ :: _, [] => false
  | a :: as, b :: bs =>
    if a < b then true else if b < a then false else listLeB as bs

def childLe (a b : String) : Prop :=
  listLeB (baseName a).data (baseName b).data = true

instance : DecidableRel childLe := fun a b =>
  inferInstanceAs (Decidable (listLeB (baseName a).data (baseName b).data = true))

/-- `FileOperations.list_directory`. -/
def list_directory (fs : FS) (path : String) (show_hidden : Bool := false) :
    ToolResult × FS :=
  match ensure_allowed resolveP home path with
  | none =>
    (verification_failure
      (permission_denied_message path (some (outsideRootsMsg (resolveP path))))
      "list" [path], fs)
  | some dir_path =>
    if !fs.pexists dir_path then
      (verification_failure ("Directory not found: " ++ dir_path) "list"
        [dir_path], fs)
    else if !fs.isDir dir_path then
      (verification_failure ("Not a directory: " ++ dir_path) "list"
        [dir_path], fs)
    else
      let sortedChildren := (childPaths fs dir_path).insertionSort childLe
      let items := (sortedChildren.filter
          (fun q => show_hidden || !(strStartsWith (baseName q) "."))).map
        (fun q =>
          { name := baseName q
            type := if fs.isDir q then "dir" else "file"
            size_bytes := if fs.isFile q then fs.fileSize q else 0 : ListItem })
      ({ status := "success"
         action := some "list"
         output := ToolOutput.listOut dir_path items
         before_paths := []
         after_paths := []
         changed := []
         verification := some ⟨true, "Read-only operation"⟩
         verification_passed := some true
         verification_details := some "Read-only operation"
         message_user := some ("Found " ++ toString items.length ++ " item(s) in "
           ++ dir_path) }, fs)

/-- `FileOperations.write_file`.  The guard on the target being a directory
or an ancestor being a file models the OS errors caught by the source's
blanket `except Exception` branch. -/
def write_file (fs : FS) (path content : String) (append : Bool := false) :
    ToolResult × FS :=
  match ensure_allowed resolveP home path with
  | none =>
    (verification_failure
      (permission_denied_message path (some (outsideRootsMsg (resolveP path))))
      "write" [path], fs)
  | some target =>
    if fs.isDir target || (strictAncestors target).any fs.isFile then
      (verification_failure ("Unexpected error writing " ++ path) "write"
        [path], fs)
    else
      let fs1 := fs.mkdirParents (parentOf target)
      let existed_before := fs.pexists target
      let incoming := content
      let combined :=
        if append && fs.pexists target then (fs.readF target).getD "" ++ incoming
        else incoming
      let fs2 := fs1.setFile target combined
      let verification := verify_write fs2 target combined
      let status := if verification.passed then "success" else "error"
      let action := if append then "append" else "write"
      ({ status := status
         action := some action
         output := ToolOutput.writeOut target incoming.length combined.length
         error := if verification.passed then none else some verification.details
         before_paths := if existed_before then [target] else []
         after_paths := [target]
         changed := [target]
         verification := some verification
         verification_passed := some verification.passed
         verification_details := some verification.details
         message_user := some (if verification.passed then
             (if append then "Appended to " else "Wrote ") ++ target ++ " (verified)"
           else verification.details) }, fs2)

/-- `shutil.move` / `shutil.copy2` destination selection: when the given
destination is an existing directory, the entry is placed below it under the
source basename. -/
def realDst (fs1 : FS) (dst srcName : String) : String :=
  if fs1.isDir dst then dst ++ "/" ++ srcName else dst

/-- `FileOperations.move_file`.  `shutil.move` into an existing directory
moves the source below it; the explicit guards model the exceptions the
source catches generically. -/
def move_file (fs : FS) (source destination : String) : ToolResult × FS :=
  match ensure_allowed resolveP home source with
  | none =>
    (verification_failure
      (permission_denied_message source (some (outsideRootsMsg (resolveP source))))
      "move" [source, destination], fs)
  | some src_path =>
  match ensure_allowed resolveP home destination with
  | none =>
    (verification_failure
      (permission_denied_message source
        (some (outsideRootsMsg (resolveP destination))))
      "move" [source, destination], fs)
  | some dst_path =>
    if !fs.pexists src_path then
      (verification_failure ("Source not found: " ++ src_path) "move"
        [src_path, dst_path], fs)
    else if (strictAncestors dst_path).any fs.isFile then
      (verification_failure "Unexpected error moving file" "move"
        [source, destination], fs)
    else
      let fs1 := fs.mkdirParents (parentOf dst_path)
      let expected_size :=
        if fs.isFile src_path then some (fs.fileSize src_path) else none
      if fs1.isDir dst_path &&
          fs1.pexists (realDst fs1 dst_path (baseName src_path)) then
        (verification_failure "Unexpected error moving file" "move"
          [source, destination], fs)
      else if !fs1.isDir dst_path && fs1.isFile dst_path && fs1.isDir src_path then
        (verification_failure "Unexpected error moving file" "move"
          [source, destination], fs)
      else
        let real_dst := realDst fs1 dst_path (baseName src_path)
        let fs2 :=
          if fs1.isDir src_path then fs1.moveTree src_path real_dst
          else (fs1.removeFile src_path).setFile real_dst
            ((fs1.readF src_path).getD "")
        let verification := verify_move fs2 src_path dst_path expected_size
        let status := if verification.passed then "success" else "error"
        ({ status := status
           action := some "move"
           output := ToolOutput.moveOut src_path dst_path
           error := if verification.passed then none else some verification.details
           before_paths := [src_path]
           after_paths := [dst_path]
           changed := [src_path, dst_path]
           verification := some verification
           verification_passed := some verification.passed
           verification_details := some verification.details
           message_user := some (if verification.passed then
               "Moved " ++ baseName src_path ++ " to " ++ dst_path
             else verification.details) }, fs2)

/-- `FileOperations.copy_file`. -/
def copy_file (fs : FS) (source destination : String) : ToolResult × FS :=
  match ensure_allowed resolveP home source with
  | none =>
    (verification_failure
      (permission_denied_message source (some (outsideRootsMsg (resolveP source))))
      "copy" [source, destination], fs)
  | some src_path =>
  match ensure_allowed resolveP home destination with
  | none =>
    (verification_failure
      (permission_denied_message source
        (some (outsideRootsMsg (resolveP destination))))
      "copy" [source, destination], fs)
  | some dst_path =>
    if !fs.pexists src_path then
      (verification_failure ("Source not found: " ++ src_path) "copy"
        [src_path, dst_path], fs)
    else if (strictAncestors dst_path).any fs.isFile then
      (verification_failure "Unexpected error copying file" "copy"
        [source, destination], fs)
    else
      let fs1 := fs.mkdirParents (parentOf dst_path)
      if fs1.isDir src_path then
        if fs1.pexists dst_path then
          (verification_failure "Unexpected error copying file" "copy"
            [source, destination], fs)
        else
          let fs2 := fs1.copyTree src_path dst_path
          let verification := verify_copy fs2 src_path dst_path none
          let status := if verification.passed then "success" else "error"
          ({ status := status
             action := some "copy"
             output := ToolOutput.copyOut src_path dst_path
             error := if verification.passed then none
               else some verification.details
             before_paths := [src_path]
             after_paths := [dst_path]
             changed := [src_path, dst_path]
             verification := some verification
             verification_passed := some verification.passed
             verification_details := some verification.details
             message_user := some (if verification.passed then
                 "Copied " ++ baseName src_path ++ " to " ++ dst_path
               else verification.details) }, fs2)
      else
        if realDst fs1 dst_path (baseName src_path) == src_path ||
            fs1.isDir (realDst fs1 dst_path (baseName src_path)) then
          (verification_failure "Unexpected error copying file" "copy"
            [source, destination], fs)
        else
          let real_dst := realDst fs1 dst_path (baseName src_path)
          let fs2 := fs1.setFile real_dst ((fs1.readF src_path).getD "")
          let expected_size := some (fs1.fileSize src_path)
          let verification := verify_copy fs2 src_path dst_path expected_size
          let status := if verification.passed then "success" else "error"
          ({ status := status
             action := some "copy"
             output := ToolOutput.copyOut src_path dst_path
             error := if verification.passed then none
               else some verification.details
             before_paths := [src_path]
             after_paths := [dst_path]
             changed := [src_path, dst_path]
             verification := some verification
             verification_passed := some verification.passed
             verification_details := some verification.details
             message_user := some (if verification.passed then
                 "Copied " ++ baseName src_path ++ " to " ++ dst_path
               else verification.details) }, fs2)

/-- `FileOperations.delete_file`. -/
def delete_file (fs : FS) (path : String) : ToolResult × FS :=
  match ensure_allowed resolveP home path with
  | none =>
    (verification_failure
      (permission_denied_message path (some (outsideRootsMsg (resolveP path))))
      "delete" [path], fs)
  | some target =>
    if !fs.pexists target then
      (verification_failure ("Path not found: " ++ target) "delete" [target], fs)
    else if (protected_paths home).contains target then
      (verification_failure ("Cannot delete protected path: " ++ target) "delete"
        [target], fs)
    else
      let fs2 := if fs.isDir target then fs.removeTree target
        else fs.removeFile target
      let verification := verify_delete fs2 target
      let status := if verification.passed then "success" else "error"
      ({ status := status
         action := some "delete"
         output := ToolOutput.deleteOut target
         error := if verification.passed then none else some verification.details
         before_paths := [target]
         after_paths := []
         changed := [target]
         verification := some verification
         verification_passed := some verification.passed
         verification_details := some verification.details
         message_user := some (if verification.passed then "Deleted " ++ target
           else verification.details) }, fs2)

/-! ### delete_by_pattern -/

/-- `fnmatch`-style glob matching with `*` and `?` (the pattern forms the
source feeds to `Path.glob`), fuelled so that it reduces in the kernel.
Every recursive call strictly decreases `ps.length + s.length`, so fuel
`ps.length + s.length + 1` never runs out. -/
def globGo : Nat → List Char → List Char → Bool
  | 0, _, _ => false
  | _ + 1, [], [] => true
  | _ + 1, [], _ :: _ => false
  | fuel + 1, '*' :: ps, [] => globGo fuel ps []
  | fuel + 1, '*' :: ps, c :: s2 =>
    globGo fuel ps (c :: s2) || globGo fuel ('*' :: ps) s2
  | _ + 1, '?' :: _, [] => false
  | fuel + 1, '?' :: ps, _ :: s2 => globGo fuel ps s2
  | _ + 1, _ :: _, [] => false
  | fuel + 1, c :: ps, c2 :: s2 => c == c2 && globGo fuel ps s2

def globMatch (ps s : List Char) : Bool :=
  globGo (ps.length + s.length + 1) ps s

/-- `dir_path.glob(pat)` for a single-component pattern: entries of `dir`
whose name matches (pathlib's glob does not special-case dotfiles). -/
def globChildren (fs : FS) (dir pat : String) : List String :=
  (childPaths fs dir).filter (fun q => globMatch pat.data (baseName q).data)

/-- The inner loop of `delete_by_pattern` over the matches of one pattern:
non-files are skipped (`continue`), files are unlinked and re-checked. -/
def delRound (fs : FS) : List String → FS × List String × List String
  | [] => (fs, [], [])
  | m :: rest =>
    if fs.isFile m then
      let fs1 := fs.removeFile m
      let (fs2, del, fail) := delRound fs1 rest
      if fs1.pexists m then (fs2, del, baseName m :: fail)
      else (fs2, baseName m :: del, fail)
    else delRound fs rest

/-- Outer loop of `delete_by_pattern` over the comma-separated patterns;
each pattern is globbed against the live filesystem. -/
def delPatterns (dir : String) (fs : FS) : List String → FS × List String × List String
  | [] => (fs, [], [])
  | pat :: rest =>
    let (fs1, d1, f1) := delRound fs (globChildren fs dir pat)
    let (fs2, d2, f2) := delPatterns dir fs1 rest
    (fs2, d1 ++ d2, f1 ++ f2)

/-- `FileOperations.delete_by_pattern`. -/
def delete_by_pattern (fs : FS) (directory pattern : String) : ToolResult × FS :=
  match ensure_allowed resolveP home directory with
  | none =>
    (verification_failure
      (permission_denied_message directory
        (some (outsideRootsMsg (resolveP directory))))
      "delete" [directory], fs)
  | some dir_path =>
    if !fs.pexists dir_path || !fs.isDir dir_path then
      (verification_failure ("Directory not found: " ++ dir_path) "delete"
        [dir_path], fs)
    else
      let patterns := ((pySplitOn pattern ",").map pyStrip).filter (fun p => p ≠ "")
      let (fs2, deleted, failures) := delPatterns dir_path fs patterns
      let verification : VerificationResult :=
        ⟨failures.isEmpty,
          if failures.isEmpty then "All matching files removed"
          else "Failed to remove: " ++ String.intercalate ", " failures⟩
      let status := if verification.passed then "success" else "error"
      ({ status := status
         action := some "delete"
         output := ToolOutput.deletePatternOut dir_path pattern deleted failures
         error := if verification.passed then none else some verification.details
         before_paths := deleted.map (joinPath dir_path)
         after_paths := []
         changed := deleted.map (joinPath dir_path)
         verification := some verification
         verification_passed := some verification.passed
         verification_details := some verification.details
         message_user := some (if verification.passed then
             "Deleted " ++ toString deleted.length ++ " file(s) matching pattern"
           else "Could not delete some files: " ++ verification.details) }, fs2)

/-- `FileOperations.create_directory`. -/
def create_directory (fs : FS) (path : String) : ToolResult × FS :=
  match ensure_allowed resolveP home path with
  | none =>
    (verification_failure
      (permission_denied_message path (some (outsideRootsMsg (resolveP path))))
      "create" [path], fs)
  | some dir_path =>
    if fs.pexists dir_path then
      (verification_failure ("Path already exists: " ++ dir_path)
        "create_directory" [dir_path], fs)
    else if (prefixPaths dir_path).any fs.isFile then
      (verification_failure "Unexpected error creating directory" "create"
        [path], fs)
    else
      let fs2 := fs.mkdirParents dir_path
      let verification := verify_create_dir fs2 dir_path
      let status := if verification.passed then "success" else "error"
      ({ status := status
         action := some "create"
         output := ToolOutput.createOut dir_path
         error := if verification.passed then none else some verification.details
         before_paths := []
         after_paths := [dir_path]
         changed := [dir_path]
         verification := some verification
         verification_passed := some verification.passed
         verification_details := some verification.details
         message_user := some (if verification.passed then
             "Created folder " ++ dir_path
           else verification.details) }, fs2)

/-- `FileOperations.search_files`. -/
def search_files (fs : FS) (directory pattern : String)
    (max_results : Nat := 50) : ToolResult × FS :=
  match ensure_allowed resolveP home directory with
  | none =>
    (verification_failure
      (permission_denied_message directory
        (some (outsideRootsMsg (resolveP directory))))
      "search" [directory], fs)
  | some dir_path =>
    if !fs.pexists dir_path then
      (verification_failure ("Directory not found: " ++ dir_path) "search"
        [dir_path], fs)
    else
      let found := (globChildren fs dir_path pattern).take max_results
      ({ status := "success"
         action := some "search"
         output := ToolOutput.searchOut found found.length
           (decide (found.length ≥ max_results))
         before_paths := []
         after_paths := []
         changed := []
         verification := some ⟨true, "Read-only operation"⟩
         verification_passed := some true
         verification_details := some "Read-only operation"
         message_user := some ("Found " ++ toString found.length
           ++ " matching item(s)") }, fs)

/-! ## Legacy organize tool (`tools/organizer.py`)

`OrganizeFilesTool.execute` still builds its results with the pre-refactor
call `ToolResult(success=…, output=…, error=…)`.  Mapped onto the current
`ToolResult` dataclass by the evident intent of that call (`status` from
`success`), such a result carries no `action`, no path lists and — crucially
for the spec invariant — no `verification` at all.  (At runtime the call is
in fact a `TypeError`: the dataclass has no `success` field and requires
`status`.) -/
def legacyToolResult (success : Bool) (output : ToolOutput)
    (error : Option String) : ToolResult :=
  { status := if success then "success" else "error"
    action := none
    output := output
    error := error }

/-- The result `OrganizeFilesTool.execute` returns on its success path
(`organizer.py`): `ToolResult(success=True, output="\n".join(result_lines),
error=None)`. -/
def organize_success_result (result_lines : List String) : ToolResult :=
  legacyToolResult true (ToolOutput.textOutput (String.intercalate "\n" result_lines)) none

/-! ## Entities (`context/entities.py`)

`uuid.uuid4()` identifiers are modelled by a fresh-counter supply carried in
the store; `datetime.now()` timestamps are a `now : Nat` parameter. -/

/-- `os.path.basename`. -/
def pyBasename (p : String) : String :=
  ((pySplitOn p "/").getLast?).getD ""

/-- `EntityKind`. -/
inductive EntityKind where
  | file
  | folder
  | selection
  | index
  | tool_result
deriving Repr, DecidableEq

/-- `EntityProvenance`. -/
inductive EntityProvenance where
  | user_explicit
  | search_result
  | list_result
  | tool_output
  | tool_read
  | tool_move
  | tool_copy
  | inferred
deriving Repr, DecidableEq

/-- `EntityMetadata`. -/
structure EntityMetadata where
  size : Option Nat := none
  mtime : Option Nat := none
  hash : Option String := none
  mime_type : Option String := none
  item_count : Option Nat := none
deriving Repr, DecidableEq

/-- `Entity` dataclass.  `id` is the stable identifier (a counter value in
the model, a UUID in the source). -/
structure Entity where
  id : Nat
  display_name : String
  absolute_path : String
  kind : EntityKind
  provenance : EntityProvenance
  timestamp : Nat
  turn_index : Nat
  metadata : EntityMetadata := {}
  selection_ids : List Nat := []
  verified_exists : Option Bool := none
deriving Repr, DecidableEq

/-- `Entity.create`: canonicalize the path (`os.path.realpath` of
`os.path.expanduser`, the `realpath` oracle) and default the display name to
the basename. -/
def Entity.create (realpath : String → String) (freshId now : Nat)
    (path : String) (kind : EntityKind) (provenance : EntityProvenance)
    (turn_index : Nat) (display_name : Option String := none)
    (metadata : Option EntityMetadata := none) : Entity :=
  let abs_path := realpath path
  let bn := pyBasename abs_path
  let name := match display_name with
    | some d => d
    | none => if bn ≠ "" then bn else abs_path
  { id := freshId
    display_name := name
    absolute_path := abs_path
    kind := kind
    provenance := provenance
    timestamp := now
    turn_index := turn_index
    metadata := metadata.getD {} }

/-- `Entity.matches_name`: `os.path.splitext`-style stem (final extension
stripped, leading dots not counted as an extension separator). -/
def pySplitextStem (name : String) : String :=
  let n := name.data
  let lead := (n.takeWhile (fun c => c == '.')).length
  let dots := (List.range n.length).filter (fun i => n.getD i ' ' == '.' && lead ≤ i)
  match dots.getLast? with
  | some i => String.mk (n.take i)
  | none => name

/-- Python `str.lower()` (ASCII model). -/
def pyLower (s : String) : String := String.mk (s.data.map Char.toLower)

/-- `Entity.matches_name`. -/
def Entity.matchesName (e : Entity) (query : String) : Bool :=
  let query_lower := pyStrip (pyLower query)
  let name_lower := pyLower e.display_name
  let stem := pyLower (pySplitextStem e.display_name)
  query_lower == name_lower || query_lower == stem ||
    strContainsSub name_lower query_lower ||
    strContainsSub stem query_lower

/-! ### EntityStore (`context/entities.py`)

The SQLite store restricted to one conversation: `entities` is kept in
insertion order (`created_at` ascending), so `get_all` — which orders by
`created_at DESC` — returns the reverse.  `INSERT OR REPLACE` (used by
`add`) re-inserts the row, moving it to the newest position; `update` keeps
the row in place. -/

structure EntityStore where
  entities : List Entity := []
  lastFileId : Option Nat := none
  lastFolderId : Option Nat := none
  selectionId : Option Nat := none
  turnIndex : Nat := 0
  nextId : Nat := 0
deriving Repr, DecidableEq

namespace EntityStore

/-- `add` (INSERT OR REPLACE by id). -/
def add (st : EntityStore) (e : Entity) : EntityStore :=
  { st with entities := st.entities.filter (fun x => x.id != e.id) ++ [e],
            nextId := max st.nextId (e.id + 1) }

/-- `get` by id. -/
def get (st : EntityStore) (i : Nat) : Option Entity :=
  st.entities.find? (fun e => e.id == i)

/-- `get_all` (ordered `created_at DESC`, i.e. newest first). -/
def get_all (st : EntityStore) : List Entity := st.entities.reverse

/-- `get_by_path`: canonicalize then scan. -/
def get_by_path (realpath : String → String) (st : EntityStore) (path : String) :
    Option Entity :=
  let abs_path := realpath path
  st.get_all.find? (fun e => e.absolute_path == abs_path)

/-- `get_recent`. -/
def get_recent (st : EntityStore) (kind : Option EntityKind := none)
    (limit : Nat := 10) : List Entity :=
  let es := st.get_all
  let es : List Entity := match kind with
    | some k => es.filter (fun e => e.kind == k)
    | none => es
  es.take limit

/-- `update` (UPDATE by id, row position preserved). -/
def update (st : EntityStore) (e : Entity) : EntityStore :=
  { st with entities := st.entities.map (fun x => if x.id == e.id then e else x) }

/-- `remove`. -/
def remove (st : EntityStore) (i : Nat) : EntityStore :=
  { st with entities := st.entities.filter (fun e => e.id != i) }

def set_last_active_file (st : EntityStore) (i : Option Nat) : EntityStore :=
  { st with lastFileId := i }

def get_last_active_file (st : EntityStore) : Option Entity :=
  match st.lastFileId with
  | some i => st.get i
  | none => none

def set_last_active_folder (st : EntityStore) (i : Option Nat) : EntityStore :=
  { st with lastFolderId := i }

def get_last_active_folder (st : EntityStore) : Option Entity :=
  match st.lastFolderId with
  | some i => st.get i
  | none => none

def set_current_selection (st : EntityStore) (i : Option Nat) : EntityStore :=
  { st with selectionId := i }

def get_current_selection (st : EntityStore) : Option Entity :=
  match st.selectionId with
  | some i => st.get i
  | none => none

/-- `get_selection_items`: resolve the member ids of a SELECTION entity, in
order. -/
def get_selection_items (st : EntityStore) (selection_id : Nat) : List Entity :=
  match st.get selection_id with
  | some sel =>
    if sel.kind == EntityKind.selection then sel.selection_ids.filterMap st.get
    else []
  | none => []

def get_turn_index (st : EntityStore) : Nat := st.turnIndex

def increment_turn (st : EntityStore) : EntityStore :=
  { st with turnIndex := st.turnIndex + 1 }

def clear_conversation (_st : EntityStore) : EntityStore := {}

end EntityStore

/-! ## ConversationContext (`context/conversation.py`) -/

/-- `PendingAction`. -/
structure PendingAction where
  tool_name : String
  params : List (String × String)
  entity : Option Entity
  reason : String
  timestamp : Nat := 0
deriving Repr, DecidableEq

/-- `ConversationContext`: the store plus the single pending-action slot. -/
structure ConversationContext where
  store : EntityStore := {}
  pending_action : Option PendingAction := none
deriving Repr, DecidableEq

namespace ConversationContext

/-- `_set_active`. -/
def setActive (ctx : ConversationContext) (e : Entity) : ConversationContext :=
  if e.kind == EntityKind.file then
    { ctx with store := ctx.store.set_last_active_file (some e.id) }
  else if e.kind == EntityKind.folder then
    { ctx with store := ctx.store.set_last_active_folder (some e.id) }
  else ctx

/-- `track_entity`. -/
def track_entity (realpath : String → String) (now : Nat)
    (ctx : ConversationContext) (path : String) (kind : EntityKind)
    (provenance : EntityProvenance) (display_name : Option String := none)
    (metadata : Option EntityMetadata := none) (set_active : Bool := true) :
    Entity × ConversationContext :=
  match ctx.store.get_by_path realpath path with
  | some existing =>
    if provenance ≠ EntityProvenance.inferred then
      let e := { existing with provenance := provenance, timestamp := now }
      let ctx1 := { ctx with store := ctx.store.update e }
      (e, if set_active then ctx1.setActive e else ctx1)
    else
      (existing, if set_active then ctx.setActive existing else ctx)
  | none =>
    let e := Entity.create realpath ctx.store.nextId now path kind provenance
      ctx.store.turnIndex display_name metadata
    let ctx1 := { ctx with store := ctx.store.add e }
    (e, if set_active then ctx1.setActive e else ctx1)

/-- `Entity.create_selection` + `_create_selection`: build a SELECTION
entity over `entities` (callers guarantee non-emptiness), store it and make
it the current selection. -/
def create_selection (realpath : String → String) (now : Nat)
    (ctx : ConversationContext) (entities : List Entity) :
    Entity × ConversationContext :=
  let parent_dir := parentOf (((entities.head?).map (·.absolute_path)).getD "")
  let sel : Entity :=
    { id := ctx.store.nextId
      display_name := "Selection of " ++ toString entities.length ++ " items"
      absolute_path := realpath parent_dir
      kind := EntityKind.selection
      provenance := EntityProvenance.list_result
      timestamp := now
      turn_index := ctx.store.turnIndex
      metadata := { item_count := some entities.length }
      selection_ids := entities.map (·.id) }
  let st1 := (ctx.store.add sel).set_current_selection (some sel.id)
  (sel, { ctx with store := st1 })

/-- `_track_list_result`, inner loop over the listed items (empty names are
skipped). -/
def trackListItems (realpath : String → String) (now : Nat) (base : String) :
    ConversationContext → List ListItem → List Entity × ConversationContext
  | ctx, [] => ([], ctx)
  | ctx, it :: rest =>
    if it.name == "" then trackListItems realpath now base ctx rest
    else
      let full_path := joinPath base it.name
      let kind := if it.type == "dir" then EntityKind.folder else EntityKind.file
      let md : Option EntityMetadata :=
        if it.size_bytes ≠ 0 then some { size := some it.size_bytes } else none
      let (e, ctx1) := track_entity realpath now ctx full_path kind
        EntityProvenance.list_result (some it.name) md false
      let (es, ctx2) := trackListItems realpath now base ctx1 rest
      (e :: es, ctx2)

/-- `_track_list_result`. -/
def track_list_result (realpath : String → String) (now : Nat)
    (ctx : ConversationContext) (base : String) (items : List ListItem) :
    List Entity × ConversationContext :=
  let (es, ctx1) := trackListItems realpath now base ctx items
  let ctx2 :=
    if base ≠ "" then
      (track_entity realpath now ctx1 base EntityKind.folder
        EntityProvenance.list_result none none true).2
    else ctx1
  let ctx3 := if es ≠ [] then (create_selection realpath now ctx2 es).2 else ctx2
  (es, ctx3)

/-- Tracking loop shared by the write/read/move/copy/search branches of
`track_from_tool_result`. -/
def trackPathsAs (realpath : String → String) (now : Nat) (kind : EntityKind)
    (provenance : EntityProvenance) (set_active : Bool) :
    ConversationContext → List String → List Entity × ConversationContext
  | ctx, [] => ([], ctx)
  | ctx, p :: rest =>
    let (e, ctx1) := track_entity realpath now ctx p kind provenance none none
      set_active
    let (es, ctx2) := trackPathsAs realpath now kind provenance set_active ctx1 rest
    (e :: es, ctx2)

/-- `track_from_tool_result`. -/
def track_from_tool_result (realpath : String → String) (now : Nat)
    (ctx : ConversationContext) (r : ToolResult) :
    List Entity × ConversationContext :=
  let action := r.action.getD ""
  if action == "list" then
    match r.output with
    | ToolOutput.listOut p items => track_list_result realpath now ctx p items
    | _ => ([], ctx)
  else if action == "create" || action == "write" || action == "append" then
    let paths := if r.after_paths.isEmpty then r.changed else r.after_paths
    trackPathsAs realpath now EntityKind.file EntityProvenance.tool_output true
      ctx paths
  else if action == "read" then
    let ps := match r.output with
      | ToolOutput.readOut p _ => if p ≠ "" then [p] else []
      | _ => []
    let paths := if ps.isEmpty then
        (if r.before_paths.isEmpty then r.changed else r.before_paths)
      else ps
    trackPathsAs realpath now EntityKind.file EntityProvenance.tool_read true
      ctx paths
  else if action == "move" then
    let dests := if r.after_paths.isEmpty then
        (match r.changed.getLast? with | some x => [x] | none => [])
      else r.after_paths
    trackPathsAs realpath now EntityKind.file EntityProvenance.tool_move true
      ctx dests
  else if action == "copy" then
    let dests := if r.after_paths.isEmpty then
        (match r.changed.getLast? with | some x => [x] | none => [])
      else r.after_paths
    trackPathsAs realpath now EntityKind.file EntityProvenance.tool_copy true
      ctx dests
  else if action == "search" then
    match r.output with
    | ToolOutput.searchOut found _ _ =>
      let tp := trackPathsAs realpath now EntityKind.file
        EntityProvenance.search_result false ctx (found.filter (fun p => p ≠ ""))
      (tp.1, if tp.1 ≠ [] then (create_selection realpath now tp.2 tp.1).2 else tp.2)
    | _ => ([], ctx)
  else if action == "create_directory" || action == "mkdir" then
    let paths := if r.after_paths.isEmpty then r.changed else r.after_paths
    trackPathsAs realpath now EntityKind.folder EntityProvenance.tool_output true
      ctx paths
  else if action == "delete" && !r.before_paths.isEmpty then
    ([], r.before_paths.foldl
      (fun c p =>
        match c.store.get_by_path realpath p with
        | some existing => { c with store := c.store.remove existing.id }
        | none => c) ctx)
  else ([], ctx)

/-- `set_pending_action`: unconditionally stores the new pending action. -/
def set_pending_action (ctx : ConversationContext) (tool_name : String)
    (params : List (String × String)) (entity : Option Entity) (reason : String)
    (now : Nat := 0) : ConversationContext :=
  { ctx with pending_action := some ⟨tool_name, params, entity, reason, now⟩ }

/-- `clear_pending_action`. -/
def clear_pending_action (ctx : ConversationContext) :
    Option PendingAction × ConversationContext :=
  (ctx.pending_action, { ctx with pending_action := none })

/-- Confirmation vocabulary (`is_confirmation`; the Italian yes appears
double-encoded in the source file and is modelled as the intended word). -/
def confirmWords : List String :=
  ["yes", "y", "ok", "sure", "do it", "proceed", "confirm",
   "sì", "si", "vai", "fallo", "conferma", "procedi"]

/-- Cancellation vocabulary (`is_cancellation`). -/
def cancelWords : List String :=
  ["no", "n", "cancel", "stop", "abort", "nevermind", "never mind",
   "annulla", "no grazie", "ferma"]

/-- `is_confirmation`: exact membership of the lowercased stripped message. -/
def is_confirmation (message : String) : Bool :=
  confirmWords.contains (pyStrip (pyLower message))

/-- `is_cancellation`. -/
def is_cancellation (message : String) : Bool :=
  cancelWords.contains (pyStrip (pyLower message))

/-- `get_selection_items` (context level). -/
def get_selection_items (ctx : ConversationContext) : List Entity :=
  match ctx.store.get_current_selection with
  | some sel => ctx.store.get_selection_items sel.id
  | none => []

/-- `update_entity_path` (defined in the source, never called by the
orchestrator). -/
def update_entity_path (realpath : String → String) (now : Nat)
    (ctx : ConversationContext) (e : Entity) (new_path : String) :
    Entity × ConversationContext :=
  let abs_path := realpath new_path
  let e2 := { e with
    absolute_path := abs_path
    display_name := pyBasename abs_path
    provenance := EntityProvenance.tool_move
    timestamp := now }
  (e2, { ctx with store := ctx.store.update e2 })

end ConversationContext

/-! ## Orchestrator pending-action handling (`engine/orchestrator.py`) -/

/-- Ordinal vocabulary of `_parse_ordinal_selection`, in source dict order. -/
def ordinalWords : List (String × Int) :=
  [("first", 0), ("1st", 0), ("primo", 0),
   ("second", 1), ("2nd", 1), ("secondo", 1),
   ("third", 2), ("3rd", 2), ("terzo", 2),
   ("fourth", 3), ("4th", 3), ("quarto", 3),
   ("fifth", 4), ("5th", 4), ("quinto", 4),
   ("last", -1), ("ultimo", -1)]

/-- `_parse_ordinal_selection`: a digit string gives `int(msg) - 1`,
otherwise the first ordinal word contained in the message (as a substring)
decides. -/
def parse_ordinal_selection (message : String) : Option Int :=
  let msg := pyStrip (pyLower message)
  if msg ≠ "" && msg.data.all Char.isDigit then
    (msg.toNat?).map (fun n => (n : Int) - 1)
  else
    (ordinalWords.find? (fun w => strContainsSub msg w.1)).map Prod.snd

/-- Legacy confirmation set checked against `self._pending_action`
(orchestrator line 395). -/
def legacyConfirmWords : List String :=
  ["yes", "sì", "si", "ok", "sure", "do it", "proceed", "vai", "fallo"]

/-- Legacy pending action (`self._pending_action`). -/
structure LegacyPending where
  tool : String
  params : List (String × String)
deriving Repr, DecidableEq

/-- The orchestrator state that `_handle_pending_action` reads and writes. -/
structure OrchState where
  context : ConversationContext := {}
  legacy_pending : Option LegacyPending := none
  last_tool_result : Option ToolResult := none
  last_directory_context : Option (String × List String) := none
deriving Repr, DecidableEq

/-- `ResponseFormatter.format_tool_unavailable`. -/
def format_tool_unavailable (tool_name : String) : String :=
  if tool_name ≠ "" then
    "That action isn\x27t available right now. (" ++ tool_name ++ ")"
  else "That action isn\x27t available right now."

/-- The destination prompt returned for a `move_file` pending action with no
destination bound. -/
def destinationPrompt : String :=
  "I need the destination path or new name to move/rename it. Please provide the destination."

/-- `_update_context_from_result`. -/
def update_context_from_result (st : OrchState) (r : ToolResult) : OrchState :=
  match r.action, r.output with
  | some "list", ToolOutput.listOut p items =>
    if p ≠ "" then
      let names := (items.map (·.name)).filter (fun n => n ≠ "")
      { st with last_directory_context := some (p, names) }
    else st
  | _, _ => st

/-- Shared tail of every execution path inside `_handle_pending_action`:
run the tool (the executor and the response formatter are oracles), record
the result, refresh the directory context, and track entities on success. -/
def runTool (execTool : String → List (String × String) → ToolResult)
    (fmt : ToolResult → String) (realpath : String → String) (now : Nat)
    (st : OrchState) (tool : String) (params : List (String × String)) :
    String × OrchState :=
  let r := execTool tool params
  let st1 := { st with last_tool_result := some r }
  let st2 := update_context_from_result st1 r
  let st3 :=
    if r.success then
      { st2 with context :=
          (st2.context.track_from_tool_result realpath now r).2 }
    else st2
  (fmt r, st3)

/-- Truthiness of a looked-up parameter (`params.get("destination")`). -/
def pyTruthy (v : Option String) : Bool :=
  match v with
  | some s => s ≠ ""
  | none => false

/-- Rebind a parameter value. -/
def setParam (ps : List (String × String)) (k v : String) :
    List (String × String) :=
  ps.map (fun e => if e.1 == k then (k, v) else e)

/-- `LeonardOrchestrator._handle_pending_action`.  `avail` models
`_tool_available`, `execTool` the tool executor, `fmt`
`ResponseFormatter.format_tool_result`.  Returns the reply (if the message
was consumed) and the updated state. -/
def handle_pending_action (avail : String → Bool)
    (execTool : String → List (String × String) → ToolResult)
    (fmt : ToolResult → String) (realpath : String → String) (now : Nat)
    (st : OrchState) (message : String) : Option String × OrchState :=
  match st.context.pending_action with
  | none =>
    match st.legacy_pending with
    | some act =>
      if legacyConfirmWords.contains (pyStrip (pyLower message)) then
        let st1 := { st with legacy_pending := none }
        if !avail act.tool then (some (format_tool_unavailable act.tool), st1)
        else
          let rr := runTool execTool fmt realpath now st1 act.tool act.params
          (some rr.1, rr.2)
      else (none, st)
    | none => (none, st)
  | some pending =>
    if ConversationContext.is_confirmation message then
      let st1 := { st with context := (st.context.clear_pending_action).2 }
      if !avail pending.tool_name then
        (some (format_tool_unavailable pending.tool_name), st1)
      else
        let rr := runTool execTool fmt realpath now st1
          pending.tool_name pending.params
        (some rr.1, rr.2)
    else if ConversationContext.is_cancellation message then
      (some "Action cancelled.",
        { st with context := (st.context.clear_pending_action).2 })
    else
      match parse_ordinal_selection message with
      | some idx =>
        let items := st.context.get_selection_items
        if 0 ≤ idx ∧ idx < items.length then
          match items.get? idx.toNat with
          | some selected =>
            let params :=
              if (pending.params.lookup "path").isSome then
                setParam pending.params "path" selected.absolute_path
              else if (pending.params.lookup "source").isSome then
                setParam pending.params "source" selected.absolute_path
              else pending.params
            if pending.tool_name == "move_file" &&
                !pyTruthy (params.lookup "destination") then
              (some destinationPrompt, st)
            else
              let st1 := { st with context := (st.context.clear_pending_action).2 }
              if !avail pending.tool_name then
                (some (format_tool_unavailable pending.tool_name), st1)
              else
                let rr := runTool execTool fmt realpath now st1
                  pending.tool_name params
                (some rr.1, rr.2)
          | none => (none, st)
        else (none, st)
      | none => (none, st)

/-! ## ActionGuard (`utils/action_guard.py`)

`re.search` is an oracle `reSearch : String → String → Option ReMatch`
(pattern, text ↦ match start and matched text); the guard's control flow —
pattern precedence, the contrast check, safe-clause positions and the
sentence-break test — is translated faithfully. -/

/-- A regex match: start offset and matched text (`match.start()`,
`match.group(0)`). -/
structure ReMatch where
  start : Nat
  matched : String
deriving Repr, DecidableEq

/-- `ActionGuard.HALLUCINATION_PATTERNS`, in source order. -/
def HALLUCINATION_PATTERNS : List String :=
  ["\\b(i(\x27ve)?|i have)\\s+(deleted|removed|renamed|moved|created|copied|written|made)\\b",
   "\\b(file|folder|directory|document)\\s+(has been|was|is)\\s+(deleted|removed|renamed|moved|created|copied)\\b",
   "\\b[\\w\\.-]+\\.(txt|pdf|doc|jpg|png|mp4|zip)\\s+(has been|was)\\s+(deleted|removed|renamed|moved|created|copied)\\b",
   "\\b(the\\s+)?(document|item)\\s+(was|has been)\\s+(deleted|created|renamed|moved|copied)\\b",
   "\\b(successfully|done|completed|finished)\\s*(deleted|renamed|moved|created|copied)?\\b",
   "\\b(deleted|removed|renamed|moved|created|copied)\\s+(successfully|done|completed)\\b",
   "\\brename[d]?\\s+.*\\s*(→|->|to)\\s+.*\\s*(successfully|done|✓|✔)?\\b",
   "\\b(the\\s+)?(file|folder|document)\\s+.*\\s+(is\\s+now|has\\s+been)\\s+(renamed|deleted|moved|created)\\b",
   "\\b(ho|abbiamo)\\s+(eliminato|cancellato|rinominato|spostato|creato|copiato)\\b",
   "\\b(file|cartella|documento)\\s+(è\\s+stat[ao]|sono\\s+stati)\\s+(eliminat|cancellat|rinominat|spostat|creat|copiat)\\b",
   "\\b(fatto|completato|eseguito)\\s*(con\\s+successo)?\\b",
   "\\b(eliminato|cancellato|rinominato|spostato|creato|copiato)\\s+con\\s+successo\\b",
   "\\b(file|documento)\\s+(eliminato|cancellato|rinominato|spostato|creato)\\b",
   "[✓✔☑️✅]\\s*(deleted|renamed|moved|created|done|fatto|eliminato)?",
   "^\\s*(done|fatto|ecco|ready|pronto)[.!]?\\s*$",
   "\\bbut\\s+(i(\x27ve)?|i have)\\s+(deleted|renamed|moved|created)\\b"]

/-- `ActionGuard.SAFE_PATTERNS`, in source order. -/
def SAFE_PATTERNS : List String :=
  ["\\b(can\x27?t|cannot|unable|won\x27?t|couldn\x27?t)\\b",
   "\\b(need|require|provide|specify|tell me)\\b.*\\b(path|file|name)\\b",
   "\\b(which|what)\\s+(file|folder|one)\\b",
   "\\bI(\x27d| would) need\\b",
   "\\bplease (provide|specify|confirm)\\b",
   "\\b(non posso|non riesco|ho bisogno)\\b"]

/-- The contrasting-claim pattern checked after a hallucination match. -/
def CONTRAST_PATTERN : String :=
  "\\b(but|however|though|although)\\s+.*(i(\x27ve)?|i have)\\s+(deleted|removed|renamed|moved|created|copied)"

/-- `str.find`: index of the first occurrence of `needle`, `-1` if absent. -/
def findSubAux (needle : List Char) : List Char → Option Nat
  | [] => if needle.isEmpty then some 0 else none
  | c :: t =>
    if needle.isPrefixOf (c :: t) then some 0
    else (findSubAux needle t).map (fun n => n + 1)

/-- `str.find` on strings. -/
def pyFind (hay needle : String) : Int :=
  match findSubAux needle.data hay.data with
  | some n => n
  | none => -1

/-- Python slicing `s[a:b]` with negative-index normalization. -/
def pySlice (s : String) (a b : Int) : String :=
  let n : Int := s.length
  let norm := fun (i : Int) =>
    (if i < 0 then max (n + i) 0 else min i n).toNat
  String.mk ((s.data.drop (norm a)).take (norm b - norm a))

/-- `ActionGuard.contains_hallucination`. -/
def contains_hallucination (reSearch : String → String → Option ReMatch)
    (text : String) : Bool × Option String :=
  let text_lower := pyLower text
  let hallucination_match :=
    (HALLUCINATION_PATTERNS.findSome? (fun p => reSearch p text_lower)).map
      (·.matched)
  match hallucination_match with
  | none => (false, none)
  | some hm =>
    let has_contrasting_claim := (reSearch CONTRAST_PATTERN text_lower).isSome
    if has_contrasting_claim then (true, some hm)
    else
      let hall_pos := pyFind text_lower hm
      let is_purely_limitation := SAFE_PATTERNS.any (fun p =>
        match reSearch p text_lower with
        | some safe_match =>
          let safe_pos : Int := safe_match.start
          if hall_pos < safe_pos then false
          else
            let text_between := pySlice text_lower safe_pos hall_pos
            !(text_between.data.contains '.') && !(text_between.data.contains '!')
        | none => false)
      if is_purely_limitation then (false, none) else (true, some hm)

/-- The fixed clarification prompt substituted for blocked replies. -/
def clarificationPrompt : String :=
  "I need more information to complete that action. Could you specify the exact file path or which file you mean?"

/-- `ActionGuard.validate_model_response`. -/
def validate_model_response (reSearch : String → String → Option ReMatch)
    (response : String) (tool_was_executed : Bool) : String × Bool :=
  if tool_was_executed then (response, false)
  else
    let h := contains_hallucination reSearch response
    if h.1 then (clarificationPrompt, true) else (response, false)

/-! ## Reference resolver (`context/resolver.py`)

Oracles: `reTest pattern text` models the boolean `re.search` tests,
`reGroup pattern text` models `re.search(...).group(1)` extraction, and
`reFindAll pattern text` models `re.findall`.  Scores (floats in `[0,1]`)
are rationals. -/

/-- `ResolutionConfidence` (`nothing` is `NONE` in the source). -/
inductive ResolutionConfidence where
  | high
  | medium
  | low
  | ambiguous
  | nothing
deriving Repr, DecidableEq

/-- `ResolvedReference`. -/
structure ResolvedReference where
  entity : Option Entity
  confidence : ResolutionConfidence
  score : ℚ
  reason : String
  alternatives : List Entity
deriving Repr, DecidableEq

/-- `ResolvedReference.needs_confirmation`. -/
def ResolvedReference.needsConfirmation (r : ResolvedReference) : Bool :=
  r.confidence == ResolutionConfidence.low ||
    r.confidence == ResolutionConfidence.ambiguous

/-- `ResolvedReference.is_ambiguous`. -/
def ResolvedReference.isAmbiguous (r : ResolvedReference) : Bool :=
  r.confidence == ResolutionConfidence.ambiguous

/-- `FILE_PRONOUNS` regex list. -/
def FILE_PRONOUNS : List String :=
  ["\\bit\\b", "\\bthat\\b", "\\bthis\\b", "\\bthe file\\b",
   "\\bquel file\\b", "\\bquesto\\b", "\\bquello\\b"]

/-- `FOLDER_PRONOUNS` regex list. -/
def FOLDER_PRONOUNS : List String :=
  ["\\bthe folder\\b", "\\bthe directory\\b", "\\bthat folder\\b",
   "\\bla cartella\\b", "\\bla directory\\b"]

/-- `ORDINALS` pattern ↦ index map, in source (insertion) order. -/
def ORDINAL_PATTERNS : List (String × Int) :=
  [("\\b(the )?(first|1st|primo)\\b", 0),
   ("\\b(the )?(second|2nd|secondo)\\b", 1),
   ("\\b(the )?(third|3rd|terzo)\\b", 2),
   ("\\b(the )?(fourth|4th|quarto)\\b", 3),
   ("\\b(the )?(fifth|5th|quinto)\\b", 4),
   ("\\b(the )?(last|ultimo)\\b", -1)]

/-- `RECENT_PATTERNS`. -/
def RECENT_PATTERNS : List String :=
  ["\\b(the one|that one)\\s*(we|you|I)?\\s*(just|recently)?\\s*(created|made|opened|read|viewed|listed)\\b",
   "\\b(just|recently)\\s*(created|made|opened|read|viewed)\\b",
   "\\b(new|nuovo)\\s*(file|folder|cartella)\\b"]

/-- The two explicit-path extraction patterns of `_extract_explicit_path`. -/
def ABS_PATH_PATTERN : String := "[\"\x27]?(/[^\\s\"\x27]+)[\"\x27]?"

def HOME_PATH_PATTERN : String := "[\"\x27]?(~/[^\\s\"\x27]+)[\"\x27]?"

/-- `ReferenceResolver._extract_explicit_path`. -/
def extract_explicit_path (reGroup : String → String → Option String)
    (utterance : String) : Option String :=
  match reGroup ABS_PATH_PATTERN utterance with
  | some p => some p
  | none => reGroup HOME_PATH_PATTERN utterance

/-- `ReferenceResolver._resolve_ordinal`, body run for the first ordinal
pattern that matches. -/
def resolveOrdinalBody (st : EntityStore) (index : Int) : ResolvedReference :=
  match st.get_current_selection with
  | none =>
    ⟨none, ResolutionConfidence.low, 3/10,
      "Ordinal used but no selection context", []⟩
  | some selection =>
    let items := st.get_selection_items selection.id
    if items.isEmpty then
      ⟨none, ResolutionConfidence.low, 3/10,
        "Selection exists but contains no items", []⟩
    else
      let index := if index < 0 then (items.length : Int) + index else index
      if 0 ≤ index ∧ index < items.length then
        match items.get? index.toNat with
        | some e =>
          ⟨some e, ResolutionConfidence.high, 95/100,
            "Ordinal reference to item " ++ toString (index + 1) ++ " in selection",
            items⟩
        | none =>  -- unreachable: the index was just bounds-checked
          ⟨none, ResolutionConfidence.low, 3/10, "Ordinal out of range", items⟩
      else
        ⟨none, ResolutionConfidence.low, 3/10,
          "Ordinal " ++ toString (index + 1) ++ " out of range", items⟩

/-- `ReferenceResolver._resolve_ordinal`. -/
def resolve_ordinal (reTest : String → String → Bool) (st : EntityStore)
    (utterance : String) : Option ResolvedReference :=
  ORDINAL_PATTERNS.findSome? (fun pi =>
    if reTest pi.1 utterance then some (resolveOrdinalBody st pi.2) else none)

/-- `ReferenceResolver._resolve_pronoun`. -/
def resolve_pronoun (reTest : String → String → Bool) (st : EntityStore)
    (utterance : String) (preferred_kind : Option EntityKind) :
    ResolvedReference :=
  let is_file_ref := FILE_PRONOUNS.any (fun p => reTest p utterance)
  let is_folder_ref := FOLDER_PRONOUNS.any (fun p => reTest p utterance)
  let target_kind : Option EntityKind :=
    if is_file_ref && !is_folder_ref then some EntityKind.file
    else if is_folder_ref && !is_file_ref then some EntityKind.folder
    else preferred_kind
  let folderHit : Option ResolvedReference :=
    if target_kind == some EntityKind.folder then
      (st.get_last_active_folder).map (fun e =>
        (⟨some e, ResolutionConfidence.high, 9/10,
          "Pronoun resolved to last active folder", []⟩ : ResolvedReference))
    else none
  let fileHit : Option ResolvedReference :=
    if target_kind == some EntityKind.file then
      (st.get_last_active_file).map (fun e =>
        (⟨some e, ResolutionConfidence.high, 9/10,
          "Pronoun resolved to last active file", []⟩ : ResolvedReference))
    else none
  match folderHit with
  | some r => r
  | none =>
  match fileHit with
  | some r => r
  | none =>
  match st.get_last_active_file with
  | some e =>
    ⟨some e, ResolutionConfidence.medium, 7/10,
      "Pronoun resolved to last active file (no explicit kind)", []⟩
  | none =>
  match st.get_last_active_folder with
  | some e =>
    ⟨some e, ResolutionConfidence.medium, 6/10,
      "Pronoun resolved to last active folder (no explicit kind)", []⟩
  | none =>
  match st.get_current_selection with
  | some selection =>
    let items := st.get_selection_items selection.id
    if items.length == 1 then
      match items.head? with
      | some e =>
        ⟨some e, ResolutionConfidence.medium, 6/10,
          "Pronoun resolved to only item in selection", items⟩
      | none =>
        ⟨none, ResolutionConfidence.nothing, 0,
          "No active entity for pronoun resolution", []⟩
    else if items.length > 1 then
      ⟨none, ResolutionConfidence.ambiguous, 4/10,
        "Pronoun ambiguous within current selection", items⟩
    else
      ⟨none, ResolutionConfidence.nothing, 0,
        "No active entity for pronoun resolution", []⟩
  | none =>
    ⟨none, ResolutionConfidence.nothing, 0,
      "No active entity for pronoun resolution", []⟩

/-- `ReferenceResolver._resolve_recent`. -/
def resolve_recent (reTest : String → String → Bool) (st : EntityStore)
    (utterance : String) (preferred_kind : Option EntityKind) :
    ResolvedReference :=
  let hit := RECENT_PATTERNS.findSome? (fun p =>
    if reTest p utterance then
      let recent := st.get_recent preferred_kind 1
      recent.head?.map (fun e =>
        (⟨some e, ResolutionConfidence.high, 9/10,
          "Resolved to most recent entity", recent⟩ : ResolvedReference))
    else none)
  match hit with
  | some r => r
  | none =>
    ⟨none, ResolutionConfidence.nothing, 0, "No recent entity matches", []⟩

/-- Python `str.split()` (whitespace runs, empties dropped). -/
def pyWords (s : String) : List String :=
  ((s.data.splitOnP Char.isWhitespace).map String.mk).filter (fun w => w ≠ "")

/-- `rsplit(".", 1)[0]` stem used by `_name_match_score`. -/
def pyRsplitStem (name : String) : String :=
  let parts := pySplitOn name "."
  if parts.length ≥ 2 then strJoin "." parts.dropLast else name

/-- `ReferenceResolver._name_match_score`. -/
def name_match_score (query : String) (e : Entity) : ℚ :=
  let query_lower := pyLower query
  let name_lower := pyLower e.display_name
  let stem := if name_lower.data.contains '.' then pyRsplitStem name_lower else name_lower
  if query_lower == name_lower then 1
  else if query_lower == stem then 95/100
  else if strStartsWith name_lower query_lower then 85/100
  else if strContainsSub name_lower query_lower then 7/10
  else
    let query_words := (pyWords query_lower).dedup
    let name_words :=
      (pyWords (pyReplace (pyReplace name_lower "-" " ") "_" " ")).dedup
    let inter := (query_words.filter (fun w => name_words.contains w)).length
    let overlap : ℚ := inter / (max query_words.length 1)
    if overlap > 0 then 1/2 + overlap * (3/10) else 0

/-- `_extract_names` stopword list. -/
def NAME_STOPWORDS : List String :=
  ["it", "that", "this", "one", "first", "second", "third", "last",
   "file", "folder", "directory", "new", "old", "just", "created"]

/-- The three extraction patterns of `_extract_names`. -/
def QUOTED_NAME_PATTERN : String := "[\"\x27]([^\"\x27]+)[\"\x27]"

def FILE_NAME_PATTERN : String := "\\b([\\w\\.-]+\\.[a-zA-Z0-9]\x7b1,6\x7d)\\b"

def THE_NAME_PATTERN : String := "(?:the|file|folder|il|la)\\s+([a-zA-Z0-9_\\-\\.]+)"

/-- `ReferenceResolver._extract_names`.  `list(set(names))` has
unspecified order in Python; it is modelled as order-preserving
deduplication. -/
def extract_names (reFindAll : String → String → List String)
    (utterance : String) : List String :=
  let quoted := reFindAll QUOTED_NAME_PATTERN utterance
  let files := reFindAll FILE_NAME_PATTERN utterance
  let the_patterns := reFindAll THE_NAME_PATTERN utterance
  let filtered := the_patterns.filter (fun n =>
    !(NAME_STOPWORDS.contains (pyLower n)))
  ((quoted ++ files) ++ filtered).dedup

/-- `_score_to_confidence`. -/
def score_to_confidence (score : ℚ) : ResolutionConfidence :=
  if score ≥ 9/10 then ResolutionConfidence.high
  else if score ≥ 6/10 then ResolutionConfidence.medium
  else if score ≥ 3/10 then ResolutionConfidence.low
  else ResolutionConfidence.nothing

/-- `matches.sort(key=lambda x: x[1], reverse=True)`: a stable sort by
descending score. -/
def sortByScoreDesc (ms : List (Entity × ℚ)) : List (Entity × ℚ) :=
  ms.insertionSort (fun a b => b.2 ≤ a.2)

/-- `ReferenceResolver._resolve_by_name`. -/
def resolve_by_name (reFindAll : String → String → List String)
    (st : EntityStore) (utterance : String)
    (preferred_kind : Option EntityKind) : ResolvedReference :=
  let names := extract_names reFindAll utterance
  if names.isEmpty then
    ⟨none, ResolutionConfidence.nothing, 0,
      "No identifiable name in utterance", []⟩
  else
    let all_entities := st.get_all
    let all_entities : List Entity := match preferred_kind with
      | some k => all_entities.filter (fun e => e.kind == k)
      | none => all_entities
    let found := names.flatMap (fun name =>
      (all_entities.filter (fun e => e.matchesName name)).map
        (fun e => (e, name_match_score name e)))
    if found.isEmpty then
      ⟨none, ResolutionConfidence.nothing, 0,
        "No entity matches name(s)", []⟩
    else
      let sortedM := sortByScoreDesc found
      match sortedM with
      | [] =>
        ⟨none, ResolutionConfidence.nothing, 0,
          "No entity matches name(s)", []⟩
      | (best_entity, best_score) :: restM =>
        let alternatives := sortedM.map Prod.fst
        let ambiguousTop := match restM.head? with
          | some second => second.2 > 7/10 && (best_score - second.2) < 1/10
          | none => false
        if ambiguousTop then
          ⟨none, ResolutionConfidence.ambiguous, best_score,
            "Multiple entities match equally well", alternatives⟩
        else
          ⟨some best_entity, score_to_confidence best_score, best_score,
            "Name match", if alternatives.length > 1 then alternatives.drop 1 else []⟩

/-- `ReferenceResolver.resolve`: the ordered resolution pipeline with the
destructive downgrade applied to HIGH pronoun results. -/
def resolve (reTest : String → String → Bool)
    (reGroup : String → String → Option String)
    (reFindAll : String → String → List String)
    (realpath : String → String) (st : EntityStore) (utterance : String)
    (preferred_kind : Option EntityKind := none)
    (is_destructive : Bool := false) : ResolvedReference :=
  let utterance_lower := pyStrip (pyLower utterance)
  match extract_explicit_path reGroup utterance with
  | some explicit_path =>
    (match st.get_by_path realpath explicit_path with
     | some e =>
       ⟨some e, ResolutionConfidence.high, 1,
         "Explicit path found in message", []⟩
     | none =>
       ⟨none, ResolutionConfidence.high, 1,
         "Explicit path: " ++ explicit_path, []⟩)
  | none =>
  match resolve_ordinal reTest st utterance_lower with
  | some ordinal_match => ordinal_match
  | none =>
    let pronoun_match := resolve_pronoun reTest st utterance_lower preferred_kind
    if pronoun_match.entity.isSome then
      if is_destructive && pronoun_match.confidence == ResolutionConfidence.high
      then
        { entity := pronoun_match.entity
          confidence := ResolutionConfidence.medium
          score := pronoun_match.score * (9/10)
          reason := pronoun_match.reason ++ " (destructive - verify)"
          alternatives := pronoun_match.alternatives }
      else pronoun_match
    else
      let recent_match := resolve_recent reTest st utterance_lower preferred_kind
      if recent_match.entity.isSome then recent_match
      else
        let nameMatch := resolve_by_name reFindAll st utterance_lower preferred_kind
        if nameMatch.entity.isSome || !nameMatch.alternatives.isEmpty then nameMatch
        else
          ⟨none, ResolutionConfidence.nothing, 0, "No matching entity found", []⟩

/-- `ReferenceResolver.resolve_for_action`. -/
def resolve_for_action (reTest : String → String → Bool)
    (reGroup : String → String → Option String)
    (reFindAll : String → String → List String)
    (realpath : String → String) (st : EntityStore) (utterance : String)
    (action : String) : ResolvedReference :=
  let is_destructive :=
    action == "delete" || action == "move" || action == "overwrite" ||
      action == "write"
  let preferred_kind : Option EntityKind :=
    if action == "delete_file" || action == "read_file" ||
        action == "write_file" || action == "move_file" ||
        action == "copy_file" then some EntityKind.file
    else if action == "list_directory" || action == "create_directory" then
      some EntityKind.folder
    else none
  resolve reTest reGroup reFindAll realpath st utterance preferred_kind
    is_destructive

/-- `ReferenceResolver.requires_confirmation`. -/
def requires_confirmation (resolution : ResolvedReference) (action : String) :
    Bool :=
  let destructive :=
    action == "delete" || action == "delete_file" ||
      action == "delete_by_pattern" || action == "overwrite" || action == "move"
  if destructive then
    if resolution.confidence != ResolutionConfidence.high then true
    else if strContainsSub (pyLower resolution.reason) "pronoun" then true
    else resolution.needsConfirmation
  else resolution.needsConfirmation

/-! ## Router (`engine/router.py`)

`json.loads` together with the `data.get(..., default)` lookups and the
`float(...)` conversion is an oracle `parse : String → Option RouteData`;
`none` models any exception of the `except (JSONDecodeError, KeyError,
ValueError)` clause. -/

/-- `ModelCapability` (`models/registry.py`). -/
inductive ModelCapability where
  | general
  | coding
  | reasoning
  | creative
  | math
  | analysis
deriving Repr, DecidableEq

/-- `RegisteredModel`, restricted to the fields the router reads. -/
structure RegisteredModel where
  id : String
  name : String
  capabilities : List (ModelCapability × ℚ)
deriving Repr, DecidableEq

/-- `m.capabilities.get(cap, 0)`. -/
def capGet (m : RegisteredModel) (c : ModelCapability) : ℚ :=
  (m.capabilities.lookup c).getD 0

/-- `RoutingDecision`. -/
structure RoutingDecision where
  model_id : String
  model_name : String
  reason : String
  capability : ModelCapability
  confidence : ℚ
deriving Repr, DecidableEq

/-- Parsed router JSON after the `.get` defaults (`reason` defaults to
"Selected by router", `confidence` to 0.7). -/
structure RouteData where
  model_id : String
  capability : String
  reason : String
  confidence : ℚ
deriving Repr, DecidableEq

/-- `ModelCapability(capability_str)` with `ValueError ↦ GENERAL`. -/
def parseCapability (s : String) : ModelCapability :=
  if s == "general" then ModelCapability.general
  else if s == "coding" then ModelCapability.coding
  else if s == "reasoning" then ModelCapability.reasoning
  else if s == "creative" then ModelCapability.creative
  else if s == "math" then ModelCapability.math
  else if s == "analysis" then ModelCapability.analysis
  else ModelCapability.general

/-- Python `max(iterable, key=...)`: first maximal element; `none` on an
empty list (where Python raises). -/
def pyMaxBy (key : RegisteredModel → ℚ) :
    List RegisteredModel → Option RegisteredModel
  | [] => none
  | m :: rest =>
    some (rest.foldl (fun best x => if key x > key best then x else best) m)

/-- `Router._fallback_routing`. -/
def fallback_routing (available : List RegisteredModel) :
    Option RoutingDecision :=
  (pyMaxBy (fun m => capGet m ModelCapability.general) available).map
    (fun best =>
      ⟨best.id, best.name, "Fallback to best general model",
        ModelCapability.general, 1/2⟩)

/-- The response-cleaning prefix of `_parse_routing_response` (markdown
fence stripping). -/
def clean_routing_response (response : String) : String :=
  let r := pyStrip response
  let r :=
    if strStartsWith r "```" then
      let s := ((pySplitOn r "```").getD 1 "")
      if strStartsWith s "json" then strDrop s 4 else s
    else r
  pyStrip r

/-- `Router._parse_routing_response`: validate the model id, fall back to a
case-insensitive name-substring match, then to the first available worker;
`none` (empty worker list reaching `available[0]`) models the uncaught
`IndexError`. -/
def parse_routing_response (parse : String → Option RouteData)
    (response : String) (available : List RegisteredModel) :
    Option RoutingDecision :=
  match parse (clean_routing_response response) with
  | none => fallback_routing available
  | some data =>
    if available.any (fun m => m.id == data.model_id) then
      let model_name :=
        (((available.find? (fun m => m.id == data.model_id)).map (·.name))).getD ""
      some ⟨data.model_id, model_name, data.reason,
        parseCapability data.capability, data.confidence⟩
    else
      match available.find? (fun m =>
        strContainsSub (pyLower data.model_id) (pyLower m.name) ||
          strContainsSub (pyLower m.name) (pyLower data.model_id)) with
      | some m =>
        some ⟨m.id, m.name, data.reason, parseCapability data.capability,
          data.confidence⟩
      | none =>
        match available with
        | [] => none
        | m0 :: _ =>
          some ⟨m0.id, m0.name, data.reason, parseCapability data.capability,
            data.confidence⟩

/-! ## Statement-level definitions -/

/-- The §3.5 invariant: a mutation `ToolResult` carries a verification whose
`passed` field is authoritative (`passed = false` forces `status = error`),
and a success result implies `passed = true` and all `after_paths` exist in
the filesystem at the moment of return. -/
def mutation_invariant (r : ToolResult) (fs : FS) : Prop :=
  r.verification.isSome = true ∧
  (∀ v, r.verification = some v → v.passed = false → r.status = "error") ∧
  (r.status = "success" →
    (∀ v, r.verification = some v → v.passed = true) ∧
    ∀ p ∈ r.after_paths, fs.pexists p = true)

/-- Well-formedness of a filesystem state: no path is simultaneously a
regular file and a directory. -/
def FS.wfb (fs : FS) : Bool :=
  fs.files.all (fun e => !(fs.dirs.contains e.1))

/-- Whether a child path of `dir` matches one of the split glob patterns of
a `delete_by_pattern` call. -/
def patternMatched (dir : String) (patterns : List String) (q : String) : Bool :=
  (parentOf q == dir && q != dir) &&
    patterns.any (fun pat => globMatch pat.data (baseName q).data)

/-! ### Concrete instances used by witnesses and counterexamples -/

/-- A tracked file entity (id 0) for the move-tracking scenario. -/
def entA : Entity :=
  { id := 0
    display_name := "a.txt"
    absolute_path := "/tmp/a.txt"
    kind := EntityKind.file
    provenance := EntityProvenance.tool_output
    timestamp := 0
    turn_index := 1 }

/-- A second tracked file entity (id 1). -/
def entB : Entity :=
  { id := 1
    display_name := "b.txt"
    absolute_path := "/tmp/b.txt"
    kind := EntityKind.file
    provenance := EntityProvenance.list_result
    timestamp := 0
    turn_index := 1 }

/-- Context tracking `entA` as the last active file. -/
def ctxA : ConversationContext :=
  { store := { entities := [entA], lastFileId := some 0, nextId := 1 } }

/-- The successful `ToolResult` of `move_file("/tmp/a.txt", "/tmp/b.txt")`
(shape produced by `FileOperations.move_file`). -/
def moveResultAB : ToolResult :=
  { status := "success"
    action := some "move"
    output := ToolOutput.moveOut "/tmp/a.txt" "/tmp/b.txt"
    before_paths := ["/tmp/a.txt"]
    after_paths := ["/tmp/b.txt"]
    changed := ["/tmp/a.txt", "/tmp/b.txt"]
    verification := some ⟨true, "Move verified"⟩
    verification_passed := some true
    verification_details := some "Move verified"
    message_user := some "Moved a.txt to /tmp/b.txt" }

/-- A selection entity (id 10) over `entA`. -/
def selA : Entity :=
  { id := 10
    display_name := "Selection of 1 items"
    absolute_path := "/tmp"
    kind := EntityKind.selection
    provenance := EntityProvenance.list_result
    timestamp := 0
    turn_index := 1
    selection_ids := [0] }

/-- The pending `delete_file` action used in the scenarios below. -/
def pendingDeleteAction : PendingAction :=
  { tool_name := "delete_file"
    params := [("path", "/tmp/a.txt")]
    entity := some entA
    reason := "Destructive action on resolved reference" }

/-- Orchestrator state with a pending `delete_file` on `/tmp/a.txt` and a
one-item current selection. -/
def pendingDeleteState : OrchState :=
  { context :=
      { store :=
          { entities := [entA, selA]
            lastFileId := some 0
            selectionId := some 10
            nextId := 11 }
        pending_action := some pendingDeleteAction } }

/-- A canned successful delete result, used as the executor oracle's answer
in pending-action scenarios. -/
def cannedDeleteResult : ToolResult :=
  { status := "success"
    action := some "delete"
    output := ToolOutput.deleteOut "/tmp/a.txt"
    before_paths := ["/tmp/a.txt"]
    after_paths := []
    changed := ["/tmp/a.txt"]
    verification := some ⟨true, "/tmp/a.txt removed"⟩
    verification_passed := some true
    verification_details := some "/tmp/a.txt removed" }

/-- Filesystem for the `delete_by_pattern` counterexample: `/tmp/d` holds a
regular file `x.txt` and a subdirectory `sub`. -/
def fsPattern : FS :=
  { files := [("/tmp/d/x.txt", "hi")]
    dirs := ["/tmp", "/tmp/d", "/tmp/d/sub"] }

/-- Filesystem for the `list_directory` ordering scenario: `/tmp/l` holds a
regular file `b.txt`, a dotfile `.h` and a subdirectory `a`. -/
def fsList : FS :=
  { files := [("/tmp/l/b.txt", "x"), ("/tmp/l/.h", "y")]
    dirs := ["/tmp", "/tmp/l", "/tmp/l/a"] }

/-- Two registered workers: `alpha` with a low general score listed first,
`beta` with the highest general score listed second. -/
def workerAlpha : RegisteredModel :=
  { id := "alpha-id", name := "Alpha", capabilities := [(ModelCapability.general, 0)] }

def workerBeta : RegisteredModel :=
  { id := "beta-id", name := "Beta", capabilities := [(ModelCapability.general, 1)] }

/-- A parse oracle returning a syntactically valid routing answer that names
an unknown model id (`zzz`, matching no worker name). -/
def parseUnknownModel : String → Option RouteData :=
  fun _ => some { model_id := "zzz", capability := "general", reason := "r", confidence := 7/10 }

/-! # Theorems -/

/-! ## Shared lemmas -/

/-- Every `_verification_failure` result satisfies the mutation invariant:
its verification is present and failed, and its status is `error`. -/
theorem mutation_invariant_failure (d a : String) (ch : List String) (fs : FS) :
    mutation_invariant (verification_failure d a ch) fs := by
  refine ⟨rfl, fun v hv _ => rfl, fun hs => ?_⟩
  simp [verification_failure] at hs

/-- Writing a file makes it exist. -/
theorem FS.pexists_setFile_self (fs : FS) (p c : String) :
    (fs.setFile p c).pexists p = true := by
  simp [FS.setFile, FS.pexists, FS.isFile, List.lookup]

/-- If a move verifies, the declared destination exists. -/
theorem verify_move_passed_dst (fs : FS) (s d : String) (e : Option Nat)
    (h : (verify_move fs s d e).passed = true) : fs.pexists d = true := by
  unfold verify_move at h
  split at h
  · simp at h
  · split at h
    · simp_all
    · simp_all

/-- If a copy verifies, the declared destination exists. -/
theorem verify_copy_passed_dst (fs : FS) (s d : String) (e : Option Nat)
    (h : (verify_copy fs s d e).passed = true) : fs.pexists d = true := by
  unfold verify_copy at h
  split at h
  · simp_all
  · simp_all

/-- If a directory creation verifies, the directory exists. -/
theorem verify_create_passed (fs : FS) (d : String)
    (h : (verify_create_dir fs d).passed = true) : fs.pexists d = true := by
  unfold verify_create_dir at h
  simp at h
  exact h.1

/-- The standard verified-mutation result shape built by every
`FileOperations` success branch satisfies the invariant whenever its
`after_paths` exist under a passing verification. -/
theorem mutation_invariant_std (a : String) (out : ToolOutput)
    (veri : VerificationResult) (bp ap ch : List String) (mu : String)
    (fs : FS) (hap : veri.passed = true → ∀ p ∈ ap, fs.pexists p = true) :
    mutation_invariant
      { status := if veri.passed then "success" else "error"
        action := some a
        output := out
        error := if veri.passed then none else some veri.details
        before_paths := bp
        after_paths := ap
        changed := ch
        verification := some veri
        verification_passed := some veri.passed
        verification_details := some veri.details
        message_user := some mu } fs := by
  refine ⟨rfl, ?_, ?_⟩
  · intro v hv hp
    simp only [Option.some.injEq] at hv
    subst hv
    simp [hp]
  · intro hs
    cases hP : veri.passed with
    | false => simp [hP] at hs
    | true =>
      refine ⟨fun v hv => ?_, hap hP⟩
      simp only [Option.some.injEq] at hv
      subst hv
      exact hP

/-! ## C2 — hallucination guard on no-tool turns -/

/-- C2: every reply produced by the model path on a turn with no executed
tool passes through `validate_model_response(·, tool_was_executed=False)`;
its output either contains no hallucination (per
`ActionGuard.contains_hallucination`) or is the fixed clarification
prompt. -/
theorem guard_reply_clean_or_clarification
    (reSearch : String → String → Option ReMatch) (response : String) :
    (contains_hallucination reSearch
        (validate_model_response reSearch response false).1).1 = false ∨
      (validate_model_response reSearch response false).1 = clarificationPrompt := by
  unfold validate_model_response
  cases h : (contains_hallucination reSearch response).1 with
  | true => right; simp [h]
  | false => left; simp [h]

/-! ## C3 — path guard blocks operations outside the allow-list -/

/-- C3: for every filesystem operation, an input path whose expanded and
canonicalized form lies outside the allow-list roots yields `status=error`
and leaves the filesystem untouched (for two-path operations, whichever
path is outside). -/
theorem path_guard_no_side_effects (resolveP : String → String) (home : String) :
    (∀ fs p ml mb, ensure_allowed resolveP home p = none →
      (read_file resolveP home fs p ml mb).1.status = "error" ∧
      (read_file resolveP home fs p ml mb).2 = fs) ∧
    (∀ fs p sh, ensure_allowed resolveP home p = none →
      (list_directory resolveP home fs p sh).1.status = "error" ∧
      (list_directory resolveP home fs p sh).2 = fs) ∧
    (∀ fs p c ap, ensure_allowed resolveP home p = none →
      (write_file resolveP home fs p c ap).1.status = "error" ∧
      (write_file resolveP home fs p c ap).2 = fs) ∧
    (∀ fs s d,
      ensure_allowed resolveP home s = none ∨ ensure_allowed resolveP home d = none →
      (move_file resolveP home fs s d).1.status = "error" ∧
      (move_file resolveP home fs s d).2 = fs) ∧
    (∀ fs s d,
      ensure_allowed resolveP home s = none ∨ ensure_allowed resolveP home d = none →
      (copy_file resolveP home fs s d).1.status = "error" ∧
      (copy_file resolveP home fs s d).2 = fs) ∧
    (∀ fs p, ensure_allowed resolveP home p = none →
      (delete_file resolveP home fs p).1.status = "error" ∧
      (delete_file resolveP home fs p).2 = fs) ∧
    (∀ fs d pat, ensure_allowed resolveP home d = none →
      (delete_by_pattern resolveP home fs d pat).1.status = "error" ∧
      (delete_by_pattern resolveP home fs d pat).2 = fs) ∧
    (∀ fs p, ensure_allowed resolveP home p = none →
      (create_directory resolveP home fs p).1.status = "error" ∧
      (create_directory resolveP home fs p).2 = fs) ∧
    (∀ fs d pat mr, ensure_allowed resolveP home d = none →
      (search_files resolveP home fs d pat mr).1.status = "error" ∧
      (search_files resolveP home fs d pat mr).2 = fs) := by
  refine ⟨?_, ?_, ?_, ?_, ?_, ?_, ?_, ?_, ?_⟩
  · intro fs p ml mb h
    simp [read_file, h, verification_failure]
  · intro fs p sh h
    simp [list_directory, h, verification_failure]
  · intro fs p c ap h
    simp [write_file, h, verification_failure]
  · intro fs s d h
    rcases h with h | h
    · simp [move_file, h, verification_failure]
    · cases hs : ensure_allowed resolveP home s with
      | none => simp [move_file, hs, verification_failure]
      | some sp => simp [move_file, hs, h, verification_failure]
  · intro fs s d h
    rcases h with h | h
    · simp [copy_file, h, verification_failure]
    · cases hs : ensure_allowed resolveP home s with
      | none => simp [copy_file, hs, verification_failure]
      | some sp => simp [copy_file, hs, h, verification_failure]
  · intro fs p h
    simp [delete_file, h, verification_failure]
  · intro fs d pat h
    simp [delete_by_pattern, h, verification_failure]
  · intro fs p h
    simp [create_directory, h, verification_failure]
  · intro fs d pat mr h
    simp [search_files, h, verification_failure]

/-- Witness for C3: `/etc/hosts` resolves outside `{home, /tmp}`, so
`delete_file` errors and the filesystem (which contains `/etc/hosts`) is
unchanged. -/
theorem path_guard_no_side_effects_witness :
    ensure_allowed id "/home/u" "/etc/hosts" = none ∧
    (delete_file id "/home/u" ⟨[("/etc/hosts", "x")], ["/etc"]⟩ "/etc/hosts").1.status = "error" ∧
    (delete_file id "/home/u" ⟨[("/etc/hosts", "x")], ["/etc"]⟩ "/etc/hosts").2 =
      ⟨[("/etc/hosts", "x")], ["/etc"]⟩ := by
  refine ⟨by decide, ?_, ?_⟩
  · exact ((path_guard_no_side_effects id "/home/u").2.2.2.2.2.1
      ⟨[("/etc/hosts", "x")], ["/etc"]⟩ "/etc/hosts" (by decide)).1
  · exact ((path_guard_no_side_effects id "/home/u").2.2.2.2.2.1
      ⟨[("/etc/hosts", "x")], ["/etc"]⟩ "/etc/hosts" (by decide)).2

/-! ## C1 — verification invariant of mutating ToolResults -/

set_option maxHeartbeats 2000000 in
/-- C1: every `ToolResult` built by the six `FileOperations` mutations
(write/append are both `write_file`, create is `create_directory`) carries a
verification whose `passed` field is authoritative and whose success implies
the `after_paths` exist on disk at return — but the `organize` tool
(`organizer.py`) still returns a legacy success result carrying no
verification at all, violating the invariant for `action=organize`. -/
theorem mutation_results_verified (resolveP : String → String) (home : String) :
    (∀ fs p c ap, mutation_invariant (write_file resolveP home fs p c ap).1
      (write_file resolveP home fs p c ap).2) ∧
    (∀ fs s d, mutation_invariant (move_file resolveP home fs s d).1
      (move_file resolveP home fs s d).2) ∧
    (∀ fs s d, mutation_invariant (copy_file resolveP home fs s d).1
      (copy_file resolveP home fs s d).2) ∧
    (∀ fs p, mutation_invariant (delete_file resolveP home fs p).1
      (delete_file resolveP home fs p).2) ∧
    (∀ fs d pat, mutation_invariant (delete_by_pattern resolveP home fs d pat).1
      (delete_by_pattern resolveP home fs d pat).2) ∧
    (∀ fs p, mutation_invariant (create_directory resolveP home fs p).1
      (create_directory resolveP home fs p).2) ∧
    (∀ result_lines, (organize_success_result result_lines).status = "success" ∧
      (organize_success_result result_lines).verification = none) := by
  refine ⟨?_, ?_, ?_, ?_, ?_, ?_, ?_⟩
  · intro fs p c ap
    unfold write_file
    cases h : ensure_allowed resolveP home p with
    | none => exact mutation_invariant_failure _ _ _ _
    | some target =>
      dsimp only
      split
      · exact mutation_invariant_failure _ _ _ _
      · refine mutation_invariant_std _ _ _ _ _ _ _ _ ?_
        intro _ q hq
        simp only [List.mem_singleton] at hq
        subst hq
        exact FS.pexists_setFile_self _ _ _
  · intro fs s d
    unfold move_file
    cases h1 : ensure_allowed resolveP home s with
    | none => exact mutation_invariant_failure _ _ _ _
    | some src_path =>
      cases h2 : ensure_allowed resolveP home d with
      | none => exact mutation_invariant_failure _ _ _ _
      | some dst_path =>
        dsimp only
        split
        · exact mutation_invariant_failure _ _ _ _
        · split
          · exact mutation_invariant_failure _ _ _ _
          · split
            · exact mutation_invariant_failure _ _ _ _
            · split
              · exact mutation_invariant_failure _ _ _ _
              · refine mutation_invariant_std _ _ _ _ _ _ _ _ ?_
                intro hp q hq
                simp only [List.mem_singleton] at hq
                subst hq
                exact verify_move_passed_dst _ _ _ _ hp
  · intro fs s d
    unfold copy_file
    cases h1 : ensure_allowed resolveP home s with
    | none => exact mutation_invariant_failure _ _ _ _
    | some src_path =>
      cases h2 : ensure_allowed resolveP home d with
      | none => exact mutation_invariant_failure _ _ _ _
      | some dst_path =>
        dsimp only
        split
        · exact mutation_invariant_failure _ _ _ _
        · split
          · exact mutation_invariant_failure _ _ _ _
          · split
            · split
              · exact mutation_invariant_failure _ _ _ _
              · refine mutation_invariant_std _ _ _ _ _ _ _ _ ?_
                intro hp q hq
                simp only [List.mem_singleton] at hq
                subst hq
                exact verify_copy_passed_dst _ _ _ _ hp
            · split
              · exact mutation_invariant_failure _ _ _ _
              · refine mutation_invariant_std _ _ _ _ _ _ _ _ ?_
                intro hp q hq
                simp only [List.mem_singleton] at hq
                subst hq
                exact verify_copy_passed_dst _ _ _ _ hp
  · intro fs p
    unfold delete_file
    cases h : ensure_allowed resolveP home p with
    | none => exact mutation_invariant_failure _ _ _ _
    | some target =>
      dsimp only
      split
      · exact mutation_invariant_failure _ _ _ _
      · split
        · exact mutation_invariant_failure _ _ _ _
        · exact mutation_invariant_std _ _ _ _ _ _ _ _ (fun _ q hq => by
            simp at hq)
  · intro fs d pat
    unfold delete_by_pattern
    cases h : ensure_allowed resolveP home d with
    | none => exact mutation_invariant_failure _ _ _ _
    | some dir_path =>
      dsimp only
      split
      · exact mutation_invariant_failure _ _ _ _
      · rcases hD : delPatterns dir_path fs
          (((pySplitOn pat ",").map pyStrip).filter (fun p => p ≠ "")) with
          ⟨fs2, deleted, failures⟩
        exact mutation_invariant_std _ _ _ _ _ _ _ _ (fun _ q hq => by
          simp at hq)
  · intro fs p
    unfold create_directory
    cases h : ensure_allowed resolveP home p with
    | none => exact mutation_invariant_failure _ _ _ _
    | some dir_path =>
      dsimp only
      split
      · exact mutation_invariant_failure _ _ _ _
      · split
        · exact mutation_invariant_failure _ _ _ _
        · refine mutation_invariant_std _ _ _ _ _ _ _ _ ?_
          intro hp q hq
          simp only [List.mem_singleton] at hq
          subst hq
          exact verify_create_passed _ _ hp
  · intro result_lines
    exact ⟨rfl, rfl⟩

/-- Witness for C1: a concrete verified write into `/tmp` satisfies the
invariant, and the organize tool's concrete success result has no
verification while reporting success. -/
theorem mutation_results_verified_witness :
    mutation_invariant (write_file id "/h" ⟨[], ["/tmp"]⟩ "/tmp/a.txt" "hi" false).1
      (write_file id "/h" ⟨[], ["/tmp"]⟩ "/tmp/a.txt" "hi" false).2 ∧
    (organize_success_result ["Organized 1 files in /tmp/d:"]).status = "success" ∧
    (organize_success_result ["Organized 1 files in /tmp/d:"]).verification = none :=
  ⟨(mutation_results_verified id "/h").1 ⟨[], ["/tmp"]⟩ "/tmp/a.txt" "hi" false,
   (mutation_results_verified id "/h").2.2.2.2.2.2 ["Organized 1 files in /tmp/d:"]⟩

/-! ## C4 — entity identity across move (code bug) -/

/-- C4 (failing-input evaluation): after a successful
`move_file /tmp/a.txt → /tmp/b.txt` is fed to `track_from_tool_result`, the
entity that represented the source (id 0) still has `absolute_path =
/tmp/a.txt`, and the destination is tracked as a brand-new entity with a
fresh id 1 — the source entity is not rewritten in place and a new id is
issued, contradicting the id-stability documented in `entities.py` (the
in-place `update_entity_path` has no caller). -/
theorem move_tracking_issues_new_id :
    ((ConversationContext.track_from_tool_result id 2 ctxA moveResultAB).2.store.get 0).map
        (fun e => e.absolute_path) = some "/tmp/a.txt" ∧
    ((ConversationContext.track_from_tool_result id 2 ctxA
        moveResultAB).2.store.get_by_path id "/tmp/b.txt").map (fun e => e.id) =
      some 1 ∧
    (ConversationContext.track_from_tool_result id 2 ctxA moveResultAB).1.map
        (fun e => e.id) = [1] := by
  decide

/-! ## C5 — pending-action lifecycle -/

/-- `_set_active` only touches the store. -/
theorem setActive_pending (ctx : ConversationContext) (e : Entity) :
    (ctx.setActive e).pending_action = ctx.pending_action := by
  unfold ConversationContext.setActive
  split_ifs <;> rfl

/-- `track_entity` only touches the store. -/
theorem track_entity_pending (rp : String → String) (now : Nat)
    (ctx : ConversationContext) (path : String) (k : EntityKind)
    (pr : EntityProvenance) (dn : Option String) (md : Option EntityMetadata)
    (sa : Bool) :
    (ConversationContext.track_entity rp now ctx path k pr dn md sa).2.pending_action =
      ctx.pending_action := by
  unfold ConversationContext.track_entity
  cases hE : ctx.store.get_by_path rp path with
  | none =>
    dsimp only
    split
    · exact setActive_pending _ _
    · rfl
  | some existing =>
    dsimp only
    split
    · split
      · exact setActive_pending _ _
      · rfl
    · split
      · exact setActive_pending _ _
      · rfl

/-- `trackPathsAs` only touches the store. -/
theorem trackPathsAs_pending (rp : String → String) (now : Nat)
    (k : EntityKind) (pr : EntityProvenance) (sa : Bool) :
    ∀ (ps : List String) (ctx : ConversationContext),
      (ConversationContext.trackPathsAs rp now k pr sa ctx ps).2.pending_action =
        ctx.pending_action := by
  intro ps
  induction ps with
  | nil => intro ctx; rfl
  | cons p t ih =>
    intro ctx
    unfold ConversationContext.trackPathsAs
    rcases hE : ConversationContext.track_entity rp now ctx p k pr none none sa
      with ⟨e, ctx1⟩
    rcases hT : ConversationContext.trackPathsAs rp now k pr sa ctx1 t
      with ⟨es, ctx2⟩
    have h1 := track_entity_pending rp now ctx p k pr none none sa
    rw [hE] at h1
    have h2 := ih ctx1
    rw [hT] at h2
    simp only [hE, hT]
    exact h2.trans h1

/-- `_create_selection` only touches the store. -/
theorem create_selection_pending (rp : String → String) (now : Nat)
    (ctx : ConversationContext) (es : List Entity) :
    (ConversationContext.create_selection rp now ctx es).2.pending_action =
      ctx.pending_action := rfl

/-- The `_track_list_result` item loop only touches the store. -/
theorem trackListItems_pending (rp : String → String) (now : Nat)
    (base : String) :
    ∀ (items : List ListItem) (ctx : ConversationContext),
      (ConversationContext.trackListItems rp now base ctx items).2.pending_action =
        ctx.pending_action := by
  intro items
  induction items with
  | nil => intro ctx; rfl
  | cons it t ih =>
    intro ctx
    unfold ConversationContext.trackListItems
    split
    · exact ih ctx
    · rcases hE : ConversationContext.track_entity rp now ctx
        (joinPath base it.name)
        (if it.type == "dir" then EntityKind.folder else EntityKind.file)
        EntityProvenance.list_result (some it.name)
        (if it.size_bytes ≠ 0 then some { size := some it.size_bytes } else none)
        false with ⟨e, ctx1⟩
      rcases hT : ConversationContext.trackListItems rp now base ctx1 t
        with ⟨es, ctx2⟩
      have h1 := track_entity_pending rp now ctx (joinPath base it.name)
        (if it.type == "dir" then EntityKind.folder else EntityKind.file)
        EntityProvenance.list_result (some it.name)
        (if it.size_bytes ≠ 0 then some { size := some it.size_bytes } else none)
        false
      rw [hE] at h1
      have h2 := ih ctx1
      rw [hT] at h2
      simp only [hE, hT]
      exact h2.trans h1

/-- `_track_list_result` only touches the store. -/
theorem track_list_result_pending (rp : String → String) (now : Nat)
    (ctx : ConversationContext) (base : String) (items : List ListItem) :
    (ConversationContext.track_list_result rp now ctx base items).2.pending_action =
      ctx.pending_action := by
  unfold ConversationContext.track_list_result
  rcases hT : ConversationContext.trackListItems rp now base ctx items
    with ⟨es, ctx1⟩
  have h1 := trackListItems_pending rp now base items ctx
  rw [hT] at h1
  simp only [hT]
  repeat' split
  all_goals first
    | exact h1
    | (rw [create_selection_pending, track_entity_pending]; exact h1)
    | (rw [create_selection_pending]; exact h1)
    | (rw [track_entity_pending]; exact h1)

/-- The delete-branch entity pruning loop only touches the store. -/
theorem prune_foldl_pending (rp : String → String) :
    ∀ (ps : List String) (ctx : ConversationContext),
      (List.foldl
        (fun c p =>
          match c.store.get_by_path rp p with
          | some existing => { c with store := c.store.remove existing.id }
          | none => c) ctx ps).pending_action = ctx.pending_action := by
  intro ps
  induction ps with
  | nil => intro ctx; rfl
  | cons p t ih =>
    intro ctx
    simp only [List.foldl]
    rw [ih]
    cases hE : ctx.store.get_by_path rp p <;> rfl

/-- `track_from_tool_result` only touches the store: the pending-action
slot survives entity tracking. -/
theorem track_from_tool_result_pending (rp : String → String) (now : Nat)
    (ctx : ConversationContext) (r : ToolResult) :
    (ctx.track_from_tool_result rp now r).2.pending_action = ctx.pending_action := by
  unfold ConversationContext.track_from_tool_result
  dsimp only
  repeat' split
  all_goals first
    | rfl
    | exact track_list_result_pending rp now ctx _ _
    | exact trackPathsAs_pending rp now _ _ _ _ _
    | exact prune_foldl_pending rp _ ctx
    | (rw [create_selection_pending]; exact trackPathsAs_pending rp now _ _ _ _ _)

/-- `_update_context_from_result` does not touch the conversation
context. -/
theorem update_context_ctx (st : OrchState) (r : ToolResult) :
    (update_context_from_result st r).context = st.context := by
  unfold update_context_from_result
  split
  · split <;> rfl
  · rfl

/-- `runTool` preserves the pending-action slot. -/
theorem runTool_pending (execTool : String → List (String × String) → ToolResult)
    (fmt : ToolResult → String) (rp : String → String) (now : Nat)
    (st : OrchState) (tool : String) (ps : List (String × String)) :
    (runTool execTool fmt rp now st tool ps).2.context.pending_action =
      st.context.pending_action := by
  unfold runTool
  dsimp only
  split
  · rw [track_from_tool_result_pending]
    rw [update_context_ctx]
  · rw [update_context_ctx]

/-- Rebinding one parameter key leaves the others unchanged. -/
theorem setParam_lookup_ne (ps : List (String × String)) (k v k' : String)
    (h : (k' == k) = false) : (setParam ps k v).lookup k' = ps.lookup k' := by
  induction ps with
  | nil => rfl
  | cons e t ih =>
    obtain ⟨k0, v0⟩ := e
    by_cases he : (k0 == k) = true
    · have hk0 : k0 = k := by simpa using he
      subst hk0
      simp only [setParam, List.map, he, if_pos]
      simp only [List.lookup, h]
      exact ih
    · have he' : ¬((k0 : String) == k) = true := he
      simp only [setParam, List.map, if_neg he']
      simp only [List.lookup]
      cases hk : (k' == k0) with
      | true => rfl
      | false => exact ih

/-- C5 (amended): the pending slot is consumed on confirmation, on
cancellation, and on an in-range ordinal reply for a non-move tool; an
ordinal reply for a `move_file` pending action without a bound destination
returns the destination prompt and leaves the slot set; and setting a new
pending action while one is set silently replaces it (no error). -/
theorem pending_action_lifecycle (avail : String → Bool)
    (execTool : String → List (String × String) → ToolResult)
    (fmt : ToolResult → String) (realpath : String → String) (now : Nat)
    (st : OrchState) (message : String) (p : PendingAction)
    (hP : st.context.pending_action = some p) :
    (ConversationContext.is_confirmation message = true →
      (handle_pending_action avail execTool fmt realpath now st
        message).2.context.pending_action = none) ∧
    (ConversationContext.is_confirmation message = false →
      ConversationContext.is_cancellation message = true →
      (handle_pending_action avail execTool fmt realpath now st
        message).2.context.pending_action = none) ∧
    (∀ idx, ConversationContext.is_confirmation message = false →
      ConversationContext.is_cancellation message = false →
      parse_ordinal_selection message = some idx →
      0 ≤ idx ∧ idx < (st.context.get_selection_items).length →
      p.tool_name ≠ "move_file" →
      (handle_pending_action avail execTool fmt realpath now st
        message).2.context.pending_action = none) ∧
    (∀ idx, ConversationContext.is_confirmation message = false →
      ConversationContext.is_cancellation message = false →
      parse_ordinal_selection message = some idx →
      0 ≤ idx ∧ idx < (st.context.get_selection_items).length →
      p.tool_name = "move_file" →
      p.params.lookup "destination" = none →
      handle_pending_action avail execTool fmt realpath now st message =
        (some destinationPrompt, st)) ∧
    (∀ ctx tn ps e r t,
      (ConversationContext.set_pending_action ctx tn ps e r t).pending_action =
        some ⟨tn, ps, e, r, t⟩) := by
  refine ⟨?_, ?_, ?_, ?_, ?_⟩
  · intro hconf
    unfold handle_pending_action
    rw [hP]
    dsimp only
    simp only [hconf, if_true]
    split
    · rfl
    · rw [runTool_pending]
      rfl
  · intro hconf hcanc
    unfold handle_pending_action
    rw [hP]
    dsimp only
    simp [hconf, hcanc, ConversationContext.clear_pending_action]
  · intro idx hconf hcanc hord hbound hmv
    unfold handle_pending_action
    rw [hP]
    dsimp only
    simp only [hconf, hcanc, hord, Bool.false_eq_true, if_false]
    rw [if_pos hbound]
    cases hsel : (st.context.get_selection_items).get? idx.toNat with
    | none =>
      exfalso
      have hlt : idx.toNat < (st.context.get_selection_items).length := by
        omega
      rw [List.get?_eq_none] at hsel
      omega
    | some selected =>
      have hmv' : (p.tool_name == "move_file") = false := by
        simpa using hmv
      simp only [hmv', Bool.false_and, Bool.false_eq_true, if_false]
      split
      · rfl
      · rw [runTool_pending]
        rfl
  · intro idx hconf hcanc hord hbound hmv hdest
    unfold handle_pending_action
    rw [hP]
    dsimp only
    simp only [hconf, hcanc, hord, Bool.false_eq_true, if_false]
    rw [if_pos hbound]
    cases hsel : (st.context.get_selection_items).get? idx.toNat with
    | none =>
      exfalso
      have hlt : idx.toNat < (st.context.get_selection_items).length := by
        omega
      rw [List.get?_eq_none] at hsel
      omega
    | some selected =>
      have hdest2 :
          ((if (p.params.lookup "path").isSome then
              setParam p.params "path" selected.absolute_path
            else if (p.params.lookup "source").isSome then
              setParam p.params "source" selected.absolute_path
            else p.params).lookup "destination") = none := by
        split
        · rw [setParam_lookup_ne _ _ _ _ (by decide)]; exact hdest
        · split
          · rw [setParam_lookup_ne _ _ _ _ (by decide)]; exact hdest
          · exact hdest
      have hmv' : (p.tool_name == "move_file") = true := by
        simpa using hmv
      simp [hmv', hdest2, pyTruthy]
  · intro ctx tn ps e r t
    rfl

/-- Witness for C5: with a pending delete and a one-item selection, the
exact message `yes` consumes the slot, the ordinal message `first` consumes
it, and a second `set_pending_action` silently replaces the first. -/
theorem pending_action_lifecycle_witness :
    (handle_pending_action (fun _ => true) (fun _ _ => cannedDeleteResult)
      (fun _ => "ok") id 3 pendingDeleteState "yes").2.context.pending_action = none ∧
    (handle_pending_action (fun _ => true) (fun _ _ => cannedDeleteResult)
      (fun _ => "ok") id 3 pendingDeleteState "first").2.context.pending_action = none ∧
    (ConversationContext.set_pending_action
      (ConversationContext.set_pending_action {} "delete_file"
        [("path", "/tmp/a.txt")] none "r1" 0)
      "move_file" [("source", "/tmp/a.txt")] none "r2" 1).pending_action =
      some ⟨"move_file", [("source", "/tmp/a.txt")], none, "r2", 1⟩ := by
  refine ⟨?_, ?_, ?_⟩
  · exact (pending_action_lifecycle (fun _ => true) (fun _ _ => cannedDeleteResult)
      (fun _ => "ok") id 3 pendingDeleteState "yes" pendingDeleteAction
      (by decide)).1 (by decide)
  · exact (pending_action_lifecycle (fun _ => true) (fun _ _ => cannedDeleteResult)
      (fun _ => "ok") id 3 pendingDeleteState "first" pendingDeleteAction
      (by decide)).2.2.1 0
      (by decide) (by decide) (by decide) (by decide) (by decide)
  · exact (pending_action_lifecycle (fun _ => true) (fun _ _ => cannedDeleteResult)
      (fun _ => "ok") id 3 pendingDeleteState "x" pendingDeleteAction
      (by decide)).2.2.2.2
      (ConversationContext.set_pending_action {} "delete_file"
        [("path", "/tmp/a.txt")] none "r1" 0)
      "move_file" [("source", "/tmp/a.txt")] none "r2" 1

/-- Counterexample for C5 as stated: setting a new PendingAction while one
is already set succeeds and silently replaces it — it is not a hard
error. -/
theorem set_pending_action_replaces_silently :
    (ConversationContext.set_pending_action
      (ConversationContext.set_pending_action {} "delete_file"
        [("path", "/tmp/a.txt")] none "r1" 0)
      "move_file" [("source", "/tmp/a.txt")] none "r2" 1).pending_action =
      some ⟨"move_file", [("source", "/tmp/a.txt")], none, "r2", 1⟩ ∧
    (⟨"move_file", [("source", "/tmp/a.txt")], none, "r2", 1⟩ : PendingAction) ≠
      ⟨"delete_file", [("path", "/tmp/a.txt")], none, "r1", 0⟩ := by
  decide

/-! ## C10 — confirmation requires exact match -/

/-- C10 (amended): confirmation and cancellation are exact-match tests on
the lowercased stripped message, and a message that is neither — and that
contains no digit string or ordinal word — leaves the pending action
untouched and produces no reply. -/
theorem confirmation_exact_match_only (avail : String → Bool)
    (execTool : String → List (String × String) → ToolResult)
    (fmt : ToolResult → String) (realpath : String → String) (now : Nat)
    (st : OrchState) (message : String) (p : PendingAction)
    (hP : st.context.pending_action = some p)
    (hconf : ConversationContext.is_confirmation message = false)
    (hcanc : ConversationContext.is_cancellation message = false)
    (hord : parse_ordinal_selection message = none) :
    handle_pending_action avail execTool fmt realpath now st message =
      (none, st) ∧
    ConversationContext.is_confirmation message =
      ConversationContext.confirmWords.contains (pyStrip (pyLower message)) ∧
    ConversationContext.is_cancellation message =
      ConversationContext.cancelWords.contains (pyStrip (pyLower message)) := by
  refine ⟨?_, rfl, rfl⟩
  unfold handle_pending_action
  rw [hP]
  simp [hconf, hcanc, hord]

/-- Witness for C10: `yes please` and `yes, delete it` are neither
confirmations nor cancellations and do not consume the pending action. -/
theorem confirmation_exact_match_only_witness :
    (handle_pending_action (fun _ => true) (fun _ _ => cannedDeleteResult)
        (fun _ => "ok") id 3 pendingDeleteState "yes please") =
      (none, pendingDeleteState) ∧
    (handle_pending_action (fun _ => true) (fun _ _ => cannedDeleteResult)
        (fun _ => "ok") id 3 pendingDeleteState "yes, delete it") =
      (none, pendingDeleteState) := by
  constructor
  · exact (confirmation_exact_match_only (fun _ => true)
      (fun _ _ => cannedDeleteResult) (fun _ => "ok") id 3 pendingDeleteState
      "yes please" pendingDeleteAction (by decide) (by decide) (by decide)
      (by decide)).1
  · exact (confirmation_exact_match_only (fun _ => true)
      (fun _ _ => cannedDeleteResult) (fun _ => "ok") id 3 pendingDeleteState
      "yes, delete it" pendingDeleteAction (by decide) (by decide) (by decide)
      (by decide)).1

/-- Counterexample for C10 as stated: `yes first` merely contains a
confirmation word plus extra text — it is neither a confirmation nor a
cancellation — yet it does consume the PendingAction (through the ordinal
path of `_handle_pending_action`). -/
theorem yes_first_consumes_pending :
    ConversationContext.is_confirmation "yes first" = false ∧
    ConversationContext.is_cancellation "yes first" = false ∧
    pendingDeleteState.context.pending_action ≠ none ∧
    (handle_pending_action (fun _ => true) (fun _ _ => cannedDeleteResult)
        (fun _ => "ok") id 3 pendingDeleteState
        "yes first").2.context.pending_action = none := by
  decide


/-! ## C6 — destructive downgrade applies to pronoun stage only -/

/-- **C6.** With `is_destructive = true`, the explicit-path stage of
`resolve` returns the same result as with `is_destructive = false`; an
ordinal-stage result is returned exactly as produced (confidence and score
undowngraded); and a pronoun-stage result that carries HIGH confidence is
downgraded to MEDIUM with its score multiplied by 9/10 and the reason
suffixed with " (destructive - verify)". -/
theorem destructive_downgrade_pronoun_only (reTest : String → String → Bool)
    (reGroup : String → String → Option String)
    (reFindAll : String → String → List String) (realpath : String → String)
    (st : EntityStore) (utterance : String)
    (preferred_kind : Option EntityKind) :
    (∀ p, extract_explicit_path reGroup utterance = some p →
      ∀ d : Bool,
        resolve reTest reGroup reFindAll realpath st utterance preferred_kind d
          = resolve reTest reGroup reFindAll realpath st utterance
              preferred_kind false) ∧
    (extract_explicit_path reGroup utterance = none →
      ∀ r, resolve_ordinal reTest st (pyStrip (pyLower utterance)) = some r →
        ∀ d : Bool,
          resolve reTest reGroup reFindAll realpath st utterance preferred_kind
            d = r) ∧
    (extract_explicit_path reGroup utterance = none →
      resolve_ordinal reTest st (pyStrip (pyLower utterance)) = none →
      (resolve_pronoun reTest st (pyStrip (pyLower utterance))
          preferred_kind).entity.isSome = true →
      (resolve_pronoun reTest st (pyStrip (pyLower utterance))
          preferred_kind).confidence = ResolutionConfidence.high →
      resolve reTest reGroup reFindAll realpath st utterance preferred_kind
          true =
        { entity := (resolve_pronoun reTest st (pyStrip (pyLower utterance))
              preferred_kind).entity
          confidence := ResolutionConfidence.medium
          score := (resolve_pronoun reTest st (pyStrip (pyLower utterance))
              preferred_kind).score * (9/10)
          reason := (resolve_pronoun reTest st (pyStrip (pyLower utterance))
              preferred_kind).reason ++ " (destructive - verify)"
          alternatives := (resolve_pronoun reTest st
              (pyStrip (pyLower utterance)) preferred_kind).alternatives }) := by
  refine ⟨?_, ?_, ?_⟩
  · intro p hp d
    simp only [resolve, hp]
  · intro h0 r hr d
    simp only [resolve, h0, hr]
  · intro h0 h1 hS hC
    simp only [resolve, h0, h1, hS, hC]
    simp

/-- Closed instance of C6: with a pronoun-only matcher and last active file
`entA`, a destructive resolve of "delete it" produces the downgraded MEDIUM
result; with an ordinal matcher and a one-item selection, a destructive
resolve of the same kind returns the HIGH ordinal result untouched. -/
theorem destructive_downgrade_pronoun_only_witness :
    resolve (fun p _ => p == "\\bit\\b") (fun _ _ => none) (fun _ _ => [])
        id ctxA.store "delete it" none true =
      { entity := (resolve_pronoun (fun p _ => p == "\\bit\\b") ctxA.store
            (pyStrip (pyLower "delete it")) none).entity
        confidence := ResolutionConfidence.medium
        score := (resolve_pronoun (fun p _ => p == "\\bit\\b") ctxA.store
            (pyStrip (pyLower "delete it")) none).score * (9/10)
        reason := (resolve_pronoun (fun p _ => p == "\\bit\\b") ctxA.store
            (pyStrip (pyLower "delete it")) none).reason
          ++ " (destructive - verify)"
        alternatives := (resolve_pronoun (fun p _ => p == "\\bit\\b")
            ctxA.store (pyStrip (pyLower "delete it")) none).alternatives } ∧
    resolve (fun p _ => p == "\\b(the )?(first|1st|primo)\\b")
        (fun _ _ => none) (fun _ _ => []) id pendingDeleteState.context.store
        "delete the first one" none true =
      { entity := some entA
        confidence := ResolutionConfidence.high
        score := 95/100
        reason := "Ordinal reference to item 1 in selection"
        alternatives := [entA] } := by
  constructor
  · exact (destructive_downgrade_pronoun_only (fun p _ => p == "\\bit\\b")
      (fun _ _ => none) (fun _ _ => []) id ctxA.store "delete it" none).2.2
      rfl (by decide) (by decide) (by decide)
  · exact (destructive_downgrade_pronoun_only
      (fun p _ => p == "\\b(the )?(first|1st|primo)\\b") (fun _ _ => none)
      (fun _ _ => []) id pendingDeleteState.context.store
      "delete the first one" none).2.1 rfl
      { entity := some entA
        confidence := ResolutionConfidence.high
        score := 95/100
        reason := "Ordinal reference to item 1 in selection"
        alternatives := [entA] } rfl true


/-! ## C8 — router fallback and unknown-id handling -/

/-- The running maximum of the Python `max(..., key=...)` fold is drawn from
the candidates and dominates all of them. -/
theorem foldl_max_spec (key : RegisteredModel → ℚ) (l : List RegisteredModel)
    (m : RegisteredModel) :
    (l.foldl (fun best x => if key x > key best then x else best) m = m ∨
      l.foldl (fun best x => if key x > key best then x else best) m ∈ l) ∧
    key m ≤ key (l.foldl (fun best x => if key x > key best then x else best) m) ∧
    ∀ x ∈ l,
      key x ≤ key (l.foldl (fun best x => if key x > key best then x else best) m) := by
  induction l generalizing m with
  | nil => simp
  | cons a l ih =>
    simp only [List.foldl_cons]
    by_cases h : key a > key m
    · simp only [if_pos h]
      obtain ⟨hmem, hle, hall⟩ := ih a
      refine ⟨?_, le_trans (le_of_lt h) hle, ?_⟩
      · rcases hmem with h1 | h1
        · right; rw [h1]; exact List.mem_cons_self a l
        · right; exact List.mem_cons_of_mem a h1
      · intro x hx
        rcases List.mem_cons.mp hx with rfl | hx
        · exact hle
        · exact hall x hx
    · simp only [if_neg h]
      obtain ⟨hmem, hle, hall⟩ := ih m
      refine ⟨?_, hle, ?_⟩
      · rcases hmem with h1 | h1
        · left; exact h1
        · right; exact List.mem_cons_of_mem a h1
      · intro x hx
        rcases List.mem_cons.mp hx with rfl | hx
        · exact le_trans (le_of_not_lt h) hle
        · exact hall x hx

/-- **C8 (amended).** An unparseable router response falls back to
`_fallback_routing`, which does pick a worker with the maximal declared
`general` capability; but a parseable response naming an unknown model id
that matches no worker name picks the FIRST available worker
(`available[0]`), not the best general one. -/
theorem routing_fallback_and_unknown_id (parse : String → Option RouteData)
    (response : String) (m0 : RegisteredModel) (rest : List RegisteredModel) :
    (parse (clean_routing_response response) = none →
      parse_routing_response parse response (m0 :: rest) =
        fallback_routing (m0 :: rest)) ∧
    (∃ best, (best = m0 ∨ best ∈ rest) ∧
      (∀ m, (m = m0 ∨ m ∈ rest) →
        capGet m ModelCapability.general ≤
          capGet best ModelCapability.general) ∧
      fallback_routing (m0 :: rest) =
        some ⟨best.id, best.name, "Fallback to best general model",
          ModelCapability.general, 1/2⟩) ∧
    (∀ data, parse (clean_routing_response response) = some data →
      ((m0 :: rest).any (fun m => m.id == data.model_id)) = false →
      ((m0 :: rest).find? (fun m =>
        strContainsSub (pyLower data.model_id) (pyLower m.name) ||
          strContainsSub (pyLower m.name) (pyLower data.model_id))) = none →
      parse_routing_response parse response (m0 :: rest) =
        some ⟨m0.id, m0.name, data.reason, parseCapability data.capability,
          data.confidence⟩) := by
  refine ⟨?_, ?_, ?_⟩
  · intro h
    simp only [parse_routing_response, h]
  · obtain ⟨hmem, hle, hall⟩ :=
      foldl_max_spec (fun m => capGet m ModelCapability.general) rest m0
    refine ⟨rest.foldl (fun best x =>
        if capGet x ModelCapability.general >
            capGet best ModelCapability.general then x else best) m0,
      hmem, ?_, rfl⟩
    intro m hm
    rcases hm with rfl | hm
    · exact hle
    · exact hall m hm
  · intro data h1 h2 h3
    simp only [parse_routing_response, h1, h2, h3]
    simp

/-- Closed instance of the router counterexample scenario: with workers
`Alpha` (general 0, listed first) and `Beta` (general 1), a response naming
the unknown id `zzz` routes to `Alpha`, while the fallback decision for an
unparseable response is `Beta`, the best general worker. -/
theorem router_unknown_id_first_worker_cex :
    parse_routing_response parseUnknownModel "resp"
        [workerAlpha, workerBeta] =
      some ⟨"alpha-id", "Alpha", "r", ModelCapability.general, 7/10⟩ ∧
    fallback_routing [workerAlpha, workerBeta] =
      some ⟨"beta-id", "Beta", "Fallback to best general model",
        ModelCapability.general, 1/2⟩ ∧
    capGet workerAlpha ModelCapability.general <
      capGet workerBeta ModelCapability.general := by
  refine ⟨rfl, rfl, ?_⟩
  show (0 : ℚ) < 1
  norm_num

/-- Closed instance of C8: the fallback path and the unknown-id path of
`_parse_routing_response`, at the two-worker registry. -/
theorem routing_fallback_and_unknown_id_witness :
    parse_routing_response (fun _ => none) "resp"
        (workerAlpha :: [workerBeta]) =
      fallback_routing (workerAlpha :: [workerBeta]) ∧
    parse_routing_response parseUnknownModel "resp"
        (workerAlpha :: [workerBeta]) =
      some ⟨workerAlpha.id, workerAlpha.name, "r",
        parseCapability "general", 7/10⟩ := by
  constructor
  · exact (routing_fallback_and_unknown_id (fun _ => none) "resp"
      workerAlpha [workerBeta]).1 rfl
  · exact (routing_fallback_and_unknown_id parseUnknownModel "resp"
      workerAlpha [workerBeta]).2.2
      { model_id := "zzz", capability := "general", reason := "r",
        confidence := 7/10 } rfl (by decide) (by decide)


/-! ## C7 — delete_by_pattern skips directories -/

/-- If a lookup misses, no key of the association list equals the probe. -/
theorem lookup_none_keys (l : List (String × String)) (m : String)
    (h : l.lookup m = none) : ∀ kv ∈ l, (kv.1 == m) = false := by
  induction l with
  | nil => intro kv hkv; cases hkv
  | cons kv0 l ih =>
    obtain ⟨k, v⟩ := kv0
    intro kv hkv
    by_cases hk : m = k
    · subst hk; simp [List.lookup] at h
    · have hb : (m == k) = false := beq_false_of_ne hk
      simp only [List.lookup, hb] at h
      rcases List.mem_cons.mp hkv with rfl | hkv2
      · exact beq_false_of_ne (fun he => hk he.symm)
      · exact ih h kv hkv2

/-- Unlinking a path removes every association for it. -/
theorem lookup_filter_self (l : List (String × String)) (m : String) :
    (l.filter (fun e => e.1 != m)).lookup m = none := by
  induction l with
  | nil => rfl
  | cons kv l ih =>
    obtain ⟨k, v⟩ := kv
    by_cases hk : k = m
    · subst hk
      simpa using ih
    · have h1 : ((k, v).1 != m) = true := by
        simp [bne, beq_false_of_ne hk]
      have h2 : (m == k) = false := beq_false_of_ne (fun he => hk he.symm)
      rw [List.filter_cons, if_pos h1]
      simp only [List.lookup, h2]
      exact ih

/-- A successful lookup exhibits its key among the stored keys. -/
theorem lookup_some_key_mem (l : List (String × String)) (m v : String)
    (h : l.lookup m = some v) : m ∈ l.map Prod.fst := by
  induction l with
  | nil => cases h
  | cons kv l ih =>
    obtain ⟨k, w⟩ := kv
    by_cases hk : m = k
    · subst hk; simp
    · have hb : (m == k) = false := beq_false_of_ne hk
      simp only [List.lookup, hb] at h
      simp [ih h]

/-- Unlinking preserves well-formedness. -/
theorem wfb_removeFile (fs : FS) (m : String) (h : FS.wfb fs = true) :
    FS.wfb (fs.removeFile m) = true := by
  simp only [FS.wfb, FS.removeFile, List.all_eq_true] at h ⊢
  intro e he
  exact h e (List.mem_of_mem_filter he)

/-- The per-pattern deletion loop never touches directories. -/
theorem delRound_dirs (fs : FS) (ms : List String) :
    (delRound fs ms).1.dirs = fs.dirs := by
  induction ms generalizing fs with
  | nil => rfl
  | cons m rest ih =>
    rw [delRound]
    by_cases hf : fs.isFile m = true
    · rw [if_pos hf]
      dsimp only
      rcases h2 : delRound (fs.removeFile m) rest with ⟨fs2, del, fail⟩
      have hI := ih (fs.removeFile m)
      rw [h2] at hI
      dsimp only at hI ⊢
      by_cases hp : (fs.removeFile m).pexists m = true
      · rw [if_pos hp]; exact hI
      · rw [if_neg hp]; exact hI
    · rw [if_neg hf]; exact ih fs

/-- The per-pattern deletion loop removes exactly the listed regular files:
the surviving files are those whose path is not among the matches. -/
theorem delRound_files (fs : FS) (ms : List String) :
    (delRound fs ms).1.files =
      fs.files.filter (fun kv => !(ms.contains kv.1)) := by
  induction ms generalizing fs with
  | nil =>
    show fs.files = fs.files.filter (fun _ => !false)
    exact (List.filter_true fs.files).symm
  | cons m rest ih =>
    rw [delRound]
    by_cases hf : fs.isFile m = true
    · rw [if_pos hf]
      dsimp only
      rcases h2 : delRound (fs.removeFile m) rest with ⟨fs2, del, fail⟩
      have hI := ih (fs.removeFile m)
      rw [h2] at hI
      dsimp only at hI ⊢
      have hgoal : fs2.files =
          fs.files.filter (fun kv => !((m :: rest).contains kv.1)) := by
        rw [hI]
        show ((fs.files.filter (fun e => e.1 != m)).filter
            (fun kv => !(rest.contains kv.1))) = _
        rw [List.filter_filter]
        apply List.filter_congr
        intro kv _
        rw [List.contains_cons]
        cases hb : kv.1 == m <;>
          cases hc : rest.contains kv.1 <;> simp [bne, hb, hc]
      by_cases hp : (fs.removeFile m).pexists m = true
      · rw [if_pos hp]; exact hgoal
      · rw [if_neg hp]; exact hgoal
    · rw [if_neg hf]
      rw [ih fs]
      apply List.filter_congr
      intro kv hkv
      have hl : fs.files.lookup m = none := by
        cases hlk : fs.files.lookup m with
        | none => rfl
        | some v => exact absurd (by simp [FS.isFile, hlk]) hf
      have hk := lookup_none_keys fs.files m hl kv hkv
      rw [List.contains_cons, hk]
      simp

/-- On a well-formed filesystem the per-pattern loop records no failures. -/
theorem delRound_failures (fs : FS) (ms : List String) (h : FS.wfb fs = true) :
    (delRound fs ms).2.2 = [] := by
  induction ms generalizing fs with
  | nil => rfl
  | cons m rest ih =>
    rw [delRound]
    by_cases hf : fs.isFile m = true
    · rw [if_pos hf]
      dsimp only
      rcases h2 : delRound (fs.removeFile m) rest with ⟨fs2, del, fail⟩
      have hI := ih (fs.removeFile m) (wfb_removeFile fs m h)
      rw [h2] at hI
      dsimp only at hI ⊢
      have hp : (fs.removeFile m).pexists m = false := by
        have h1 : (fs.removeFile m).isFile m = false := by
          simp [FS.isFile, FS.removeFile, lookup_filter_self]
        have hd : fs.dirs.contains m = false := by
          have hf2 : (List.lookup m fs.files).isSome = true := hf
          obtain ⟨v, hv⟩ := Option.isSome_iff_exists.mp hf2
          obtain ⟨kv, hkv, hkey⟩ :=
            List.mem_map.mp (lookup_some_key_mem fs.files m v hv)
          have hwf : fs.files.all (fun e => !(fs.dirs.contains e.1)) = true := h
          have hall := (List.all_eq_true.mp hwf) kv hkv
          rw [hkey] at hall
          cases hcd : fs.dirs.contains m
          · rfl
          · rw [hcd] at hall; cases hall
        have hsplit : (fs.removeFile m).pexists m =
            ((fs.removeFile m).isFile m || fs.dirs.contains m) := rfl
        rw [hsplit, h1, hd]
        rfl
      rw [if_neg (by simp [hp])]
      exact hI
    · rw [if_neg hf]; exact ih fs h

/-- Directories survive every round of `delete_by_pattern`. -/
theorem delPatterns_dirs (dir : String) (pats : List String) (fs : FS) :
    (delPatterns dir fs pats).1.dirs = fs.dirs := by
  induction pats generalizing fs with
  | nil => rfl
  | cons pat rest ih =>
    rw [delPatterns]
    dsimp only
    rcases h1 : delRound fs (globChildren fs dir pat) with ⟨fs1, d1, f1⟩
    dsimp only
    rcases h2 : delPatterns dir fs1 rest with ⟨fs2, d2, f2⟩
    have e1 := delRound_dirs fs (globChildren fs dir pat)
    rw [h1] at e1
    have e2 := ih fs1
    rw [h2] at e2
    dsimp only at e1 e2 ⊢
    exact e2.trans e1

/-- The deletion loop preserves well-formedness. -/
theorem delRound_wfb (fs : FS) (ms : List String) (h : FS.wfb fs = true) :
    FS.wfb (delRound fs ms).1 = true := by
  have hf := delRound_files fs ms
  have hd := delRound_dirs fs ms
  simp only [FS.wfb, List.all_eq_true] at h ⊢
  intro e he
  rw [hf] at he
  rw [hd]
  exact h e (List.mem_of_mem_filter he)

/-- On a well-formed filesystem `delete_by_pattern` collects no failures. -/
theorem delPatterns_failures (dir : String) (pats : List String) (fs : FS)
    (h : FS.wfb fs = true) : (delPatterns dir fs pats).2.2 = [] := by
  induction pats generalizing fs with
  | nil => rfl
  | cons pat rest ih =>
    rw [delPatterns]
    dsimp only
    rcases h1 : delRound fs (globChildren fs dir pat) with ⟨fs1, d1, f1⟩
    dsimp only
    rcases h2 : delPatterns dir fs1 rest with ⟨fs2, d2, f2⟩
    have e1 := delRound_failures fs (globChildren fs dir pat) h
    rw [h1] at e1
    have hw1 := delRound_wfb fs (globChildren fs dir pat) h
    rw [h1] at hw1
    have e2 := ih fs1 hw1
    rw [h2] at e2
    dsimp only at e1 e2 ⊢
    rw [e1, e2]
    rfl

/-- Across all rounds, the surviving regular files are exactly those whose
path does not match any of the split glob patterns in the directory —
directory entries are never candidates for removal. -/
theorem delPatterns_files (dir : String) (pats : List String) (fs : FS) :
    (delPatterns dir fs pats).1.files =
      fs.files.filter (fun kv => !(patternMatched dir pats kv.1)) := by
  induction pats generalizing fs with
  | nil =>
    show fs.files = fs.files.filter (fun kv => !(patternMatched dir [] kv.1))
    have : ∀ kv : String × String, (!(patternMatched dir [] kv.1)) = true := by
      intro kv; simp [patternMatched]
    calc fs.files = fs.files.filter (fun _ => true) :=
          (List.filter_true fs.files).symm
      _ = _ := (List.filter_congr (fun kv _ => (this kv).symm))
  | cons pat rest ih =>
    rw [delPatterns]
    dsimp only
    rcases h1 : delRound fs (globChildren fs dir pat) with ⟨fs1, d1, f1⟩
    dsimp only
    rcases h2 : delPatterns dir fs1 rest with ⟨fs2, d2, f2⟩
    have e1 := delRound_files fs (globChildren fs dir pat)
    rw [h1] at e1
    have e2 := ih fs1
    rw [h2] at e2
    dsimp only at e1 e2 ⊢
    rw [e2, e1, List.filter_filter]
    apply List.filter_congr
    intro kv hkv
    have hmem : (globChildren fs dir pat).contains kv.1 =
        ((parentOf kv.1 == dir && kv.1 != dir) &&
          globMatch pat.data (baseName kv.1).data) := by
      rw [Bool.eq_iff_iff]
      constructor
      · intro hc
        have hm := List.elem_iff.mp hc
        have hx := List.mem_filter.mp hm
        have hy := List.mem_filter.mp hx.1
        rw [Bool.and_eq_true]
        exact ⟨hy.2, hx.2⟩
      · intro hc
        rw [Bool.and_eq_true] at hc
        obtain ⟨hc1, hc2⟩ := hc
        exact List.elem_eq_true_of_mem (List.mem_filter.mpr
          ⟨List.mem_filter.mpr
            ⟨List.mem_append_left _ (List.mem_map_of_mem Prod.fst hkv), hc1⟩,
            hc2⟩)
    rw [hmem]
    simp only [patternMatched, List.any_cons]
    cases hb1 : (parentOf kv.1 == dir && kv.1 != dir) <;>
      cases hb2 : globMatch pat.data (baseName kv.1).data <;>
      cases hb3 : rest.any (fun p => globMatch p.data (baseName kv.1).data) <;>
      simp [hb1, hb2, hb3]

set_option maxHeartbeats 1000000 in
/-- **C7 (amended).** For an allowed, existing directory on a well-formed
filesystem, `delete_by_pattern` reports `status = "success"`, never removes
a directory (even one matching the glob pattern), and removes exactly the
regular files matching one of the comma-split patterns; so success means
every matching regular FILE is gone, while matching directory entries are
skipped and remain on disk. -/
theorem delete_by_pattern_success_spares_dirs (resolveP : String → String)
    (home : String) (fs : FS) (directory pattern dir_path : String)
    (hA : ensure_allowed resolveP home directory = some dir_path)
    (hw : FS.wfb fs = true)
    (hE : fs.pexists dir_path = true) (hD : fs.isDir dir_path = true) :
    (delete_by_pattern resolveP home fs directory pattern).1.status =
      "success" ∧
    (delete_by_pattern resolveP home fs directory pattern).2.dirs = fs.dirs ∧
    (delete_by_pattern resolveP home fs directory pattern).2.files =
      fs.files.filter (fun kv => !(patternMatched dir_path
        (((pySplitOn pattern ",").map pyStrip).filter (fun p => p ≠ ""))
        kv.1)) := by
  have hguard : (!fs.pexists dir_path || !fs.isDir dir_path) = false := by
    rw [hE, hD]; rfl
  rcases hDP : delPatterns dir_path fs
      (((pySplitOn pattern ",").map pyStrip).filter (fun p => p ≠ "")) with
    ⟨fs2, deleted, failures⟩
  have hfail := delPatterns_failures dir_path
    (((pySplitOn pattern ",").map pyStrip).filter (fun p => p ≠ "")) fs hw
  rw [hDP] at hfail
  have hdirs := delPatterns_dirs dir_path
    (((pySplitOn pattern ",").map pyStrip).filter (fun p => p ≠ "")) fs
  rw [hDP] at hdirs
  have hfiles := delPatterns_files dir_path
    (((pySplitOn pattern ",").map pyStrip).filter (fun p => p ≠ "")) fs
  rw [hDP] at hfiles
  dsimp only at hfail hdirs hfiles
  subst hfail
  simp only [delete_by_pattern, hA, hguard, hDP]
  refine ⟨by simp, by simpa using hdirs, by simpa using hfiles⟩

/-- Counterexample to the literal C7 claim: with `/tmp/d` holding the file
`x.txt` and the subdirectory `sub`, `delete_by_pattern` on pattern `*`
returns overall success although the directory entry `sub` matches the
pattern and remains on disk. -/
theorem delete_by_pattern_dir_survives_cex :
    (delete_by_pattern id "/home/u" fsPattern "/tmp/d" "*").1.status =
      "success" ∧
    "/tmp/d/sub" ∈ childPaths fsPattern "/tmp/d" ∧
    globMatch "*".data (baseName "/tmp/d/sub").data = true ∧
    (delete_by_pattern id "/home/u" fsPattern "/tmp/d" "*").2.pexists
      "/tmp/d/sub" = true := by
  decide

/-- Closed instance of the amended C7 theorem on the same filesystem. -/
theorem delete_by_pattern_success_spares_dirs_witness :
    (delete_by_pattern id "/home/u" fsPattern "/tmp/d" "*").1.status =
      "success" ∧
    (delete_by_pattern id "/home/u" fsPattern "/tmp/d" "*").2.dirs =
      fsPattern.dirs ∧
    (delete_by_pattern id "/home/u" fsPattern "/tmp/d" "*").2.files =
      fsPattern.files.filter (fun kv => !(patternMatched "/tmp/d"
        (((pySplitOn "*" ",").map pyStrip).filter (fun p => p ≠ "")) kv.1)) :=
  delete_by_pattern_success_spares_dirs id "/home/u" fsPattern "/tmp/d" "*"
    "/tmp/d" (by decide) (by decide) (by decide) (by decide)


/-- `listLeB` decides the negation of the lexicographic order underlying
`<` on strings. -/
theorem listLeB_not_lt : ∀ x y : List Char,
    listLeB x y = true ↔ ¬ List.Lex (· < ·) y x := by
  intro x
  induction x with
  | nil =>
    intro y
    cases y with
    | nil =>
      constructor
      · intro _ h; cases h
      · intro _; rfl
    | cons b bs =>
      constructor
      · intro _ h; cases h
      · intro _; rfl
  | cons a as ih =>
    intro y
    cases y with
    | nil =>
      constructor
      · intro h; exact (Bool.false_ne_true h).elim
      · intro h; exact (h List.Lex.nil).elim
    | cons b bs =>
      show (if a < b then true else if b < a then false else listLeB as bs) =
          true ↔ ¬ List.Lex (· < ·) (b :: bs) (a :: as)
      by_cases hab : a < b
      · rw [if_pos hab]
        constructor
        · intro _ h
          cases h with
          | cons h2 => exact absurd hab (lt_irrefl a)
          | rel h2 => exact absurd hab (lt_asymm h2)
        · intro _; rfl
      · by_cases hba : b < a
        · rw [if_neg hab, if_pos hba]
          constructor
          · intro h; exact (Bool.false_ne_true h).elim
          · intro h; exact (h (List.Lex.rel hba)).elim
        · rw [if_neg hab, if_neg hba]
          rw [ih bs]
          have hev : a = b := le_antisymm (le_of_not_lt hba) (le_of_not_lt hab)
          subst hev
          constructor
          · intro h hlt
            cases hlt with
            | cons h2 => exact h h2
            | rel h2 => exact hba h2
          · intro h h3
            exact h (List.Lex.cons h3)

/-- `listLeB` on the character data decides `≤` on strings. -/
theorem listLeB_le (a b : String) : listLeB a.data b.data = true ↔ a ≤ b := by
  rw [String.le_iff_toList_le, ← not_lt]
  exact listLeB_not_lt a.data b.data

instance : IsTotal String childLe :=
  ⟨fun a b => by
    unfold childLe
    rcases le_total (baseName a) (baseName b) with h | h
    · exact Or.inl ((listLeB_le _ _).mpr h)
    · exact Or.inr ((listLeB_le _ _).mpr h)⟩

instance : IsTrans String childLe :=
  ⟨fun a b c h1 h2 => by
    unfold childLe at *
    exact (listLeB_le _ _).mpr
      (le_trans ((listLeB_le _ _).mp h1) ((listLeB_le _ _).mp h2))⟩


/-! ## C9 — listing order, hidden entries and the persisted selection -/

/-- The entity handed back by `track_entity` always carries the resolved
absolute path of the tracked path. -/
theorem track_entity_abs (rp : String → String) (now : Nat)
    (ctx : ConversationContext) (p : String) (k : EntityKind)
    (pr : EntityProvenance) (dn : Option String)
    (md : Option EntityMetadata) (sa : Bool) :
    (ConversationContext.track_entity rp now ctx p k pr dn md sa).1.absolute_path
      = rp p := by
  have hval : ∀ e', ctx.store.get_by_path rp p = some e' →
      e'.absolute_path = rp p := by
    intro e' he
    have h2 : ctx.store.get_all.find? (fun e => e.absolute_path == rp p) =
        some e' := he
    have h3 := List.find?_some h2
    exact eq_of_beq h3
  unfold ConversationContext.track_entity
  cases hg : ctx.store.get_by_path rp p with
  | some existing =>
    dsimp only
    split
    · exact hval existing hg
    · exact hval existing hg
  | none =>
    dsimp only
    rfl

/-- The entities produced by the listing loop follow the listed items in
order, skipping empty names, and record the joined absolute paths. -/
theorem trackListItems_abs (rp : String → String) (now : Nat) (base : String) :
    ∀ (its : List ListItem) (ctx : ConversationContext),
      (ConversationContext.trackListItems rp now base ctx its).1.map
          (fun e => e.absolute_path) =
        (its.filter (fun it => it.name ≠ "")).map
          (fun it => rp (joinPath base it.name)) := by
  intro its
  induction its with
  | nil => intro ctx; rfl
  | cons it rest ih =>
    intro ctx
    rw [ConversationContext.trackListItems]
    by_cases hn : (it.name == "") = true
    · rw [if_pos hn]
      rw [ih ctx]
      have hemp : it.name = "" := eq_of_beq hn
      simp [List.filter_cons, hemp]
    · rw [if_neg hn]
      dsimp only
      rcases hTE : ConversationContext.track_entity rp now ctx
          (joinPath base it.name)
          (if it.type == "dir" then EntityKind.folder else EntityKind.file)
          EntityProvenance.list_result (some it.name)
          (if it.size_bytes ≠ 0 then some { size := some it.size_bytes }
            else none) false with ⟨e, ctx1⟩
      dsimp only
      rcases hTL : ConversationContext.trackListItems rp now base ctx1 rest
        with ⟨es, ctx2⟩
      dsimp only
      have habs := track_entity_abs rp now ctx (joinPath base it.name)
        (if it.type == "dir" then EntityKind.folder else EntityKind.file)
        EntityProvenance.list_result (some it.name)
        (if it.size_bytes ≠ 0 then some { size := some it.size_bytes }
          else none) false
      rw [hTE] at habs
      have hrest := ih ctx1
      rw [hTL] at hrest
      dsimp only at habs hrest
      have hne : it.name ≠ "" := fun he => hn (beq_iff_eq.mpr he)
      rw [List.map_cons, habs, hrest, List.filter_cons, if_pos (by simp [hne])]
      rw [List.map_cons]

/-- The first component of `_track_list_result` is the entity list built by
the item loop. -/
theorem track_list_result_fst (rp : String → String) (now : Nat)
    (ctx : ConversationContext) (base : String) (its : List ListItem) :
    (ConversationContext.track_list_result rp now ctx base its).1 =
      (ConversationContext.trackListItems rp now base ctx its).1 := by
  unfold ConversationContext.track_list_result
  rcases hTL : ConversationContext.trackListItems rp now base ctx its
    with ⟨es, ctx1⟩
  dsimp only

/-- A deduplicating insert leaves no other row with the inserted id. -/
theorem find?_id_filter_none (l : List Entity) (n : Nat) :
    (l.filter (fun x => x.id != n)).find? (fun e => e.id == n) = none := by
  induction l with
  | nil => rfl
  | cons a l ih =>
    by_cases ha : a.id = n
    · rw [List.filter_cons, if_neg (by simp [bne, ha])]
      exact ih
    · rw [List.filter_cons, if_pos (by simp [bne, beq_false_of_ne ha])]
      have h2 : (a.id == n) = false := beq_false_of_ne ha
      simp only [List.find?, h2]
      exact ih

/-- `INSERT OR REPLACE` followed by a lookup of the fresh id returns the
inserted row. -/
theorem EntityStore.get_add_self (st : EntityStore) (e : Entity) :
    (st.add e).get e.id = some e := by
  show ((st.entities.filter (fun x => x.id != e.id)) ++ [e]).find?
      (fun x => x.id == e.id) = some e
  rw [List.find?_append, find?_id_filter_none]
  simp [List.find?]

/-- `_create_selection` stores the member ids in the given order, and makes
the new SELECTION entity the current selection. -/
theorem create_selection_spec (rp : String → String) (now : Nat)
    (ctx : ConversationContext) (es : List Entity) :
    (ConversationContext.create_selection rp now ctx
        es).2.store.get_current_selection =
      some (ConversationContext.create_selection rp now ctx es).1 ∧
    (ConversationContext.create_selection rp now ctx es).1.selection_ids =
      es.map (fun e => e.id) ∧
    (ConversationContext.create_selection rp now ctx es).1.kind =
      EntityKind.selection := by
  refine ⟨?_, rfl, rfl⟩
  exact EntityStore.get_add_self ctx.store _

/-- After `_track_list_result` tracks a non-empty listing, the current
selection is a SELECTION entity holding the ids of the returned entities in
the returned order. -/
theorem track_list_result_selection (rp : String → String) (now : Nat)
    (ctx : ConversationContext) (base : String) (items : List ListItem)
    (hne : (ConversationContext.track_list_result rp now ctx base items).1 ≠
      []) :
    ∃ sel, (ConversationContext.track_list_result rp now ctx base
        items).2.store.get_current_selection = some sel ∧
      sel.kind = EntityKind.selection ∧
      sel.selection_ids = (ConversationContext.track_list_result rp now ctx
        base items).1.map (fun e => e.id) := by
  rcases hTL : ConversationContext.trackListItems rp now base ctx items
    with ⟨es, ctx1⟩
  have hfst : (ConversationContext.track_list_result rp now ctx base
      items).1 = es := by
    unfold ConversationContext.track_list_result
    rw [hTL]
  have hes : es ≠ [] := by rw [hfst] at hne; exact hne
  have hsnd : (ConversationContext.track_list_result rp now ctx base
      items).2 = (ConversationContext.create_selection rp now
        (if base ≠ "" then
          (ConversationContext.track_entity rp now ctx1 base
            EntityKind.folder EntityProvenance.list_result none none true).2
          else ctx1) es).2 := by
    unfold ConversationContext.track_list_result
    rw [hTL]
    dsimp only
    rw [if_pos hes]
  obtain ⟨h1, h2, h3⟩ := create_selection_spec rp now
    (if base ≠ "" then
      (ConversationContext.track_entity rp now ctx1 base EntityKind.folder
        EntityProvenance.list_result none none true).2
      else ctx1) es
  refine ⟨_, ?_, h3, ?_⟩
  · rw [hsnd]; exact h1
  · rw [hfst]; exact h2

/-- Ordinal references read the selection items back through
`get_selection_items`, which walks `selection_ids` in stored order. -/
theorem selection_items_in_stored_order (st : EntityStore) (sel : Entity)
    (h : st.get_current_selection = some sel)
    (hk : sel.kind = EntityKind.selection) :
    st.get_selection_items sel.id = sel.selection_ids.filterMap st.get := by
  unfold EntityStore.get_current_selection at h
  cases hsi : st.selectionId with
  | none => rw [hsi] at h; cases h
  | some i =>
    rw [hsi] at h
    dsimp only at h
    have hfind : st.entities.find? (fun e => e.id == i) = some sel := h
    have hb := List.find?_some hfind
    have hid : sel.id = i := eq_of_beq hb
    unfold EntityStore.get_selection_items
    rw [hid, h]
    dsimp only
    rw [if_pos (by rw [hk]; rfl)]


set_option maxHeartbeats 1000000 in
/-- **C9.** For an allowed, existing directory, the items returned by
`list_directory` are sorted ascending by name; entries whose name starts
with `.` are excluded unless `show_hidden = true`; the returned names are
exactly the (hidden-filtered) children of the directory; and this returned
order is the order persisted into the SELECTION: tracking the listing
yields entities whose paths follow the items in order, the stored
`selection_ids` are their ids in that order, and ordinal references read
the selection back through `get_selection_items`, which walks
`selection_ids` in stored order. -/
theorem list_directory_order_drives_selection (resolveP : String → String)
    (home : String) (fs : FS) (path dir_path : String) (show_hidden : Bool)
    (hA : ensure_allowed resolveP home path = some dir_path)
    (hE : fs.pexists dir_path = true) (hD : fs.isDir dir_path = true) :
    ∀ items, (list_directory resolveP home fs path show_hidden).1.output =
        ToolOutput.listOut dir_path items →
      items.Pairwise (fun a b => a.name ≤ b.name) ∧
      (show_hidden = false →
        ∀ it ∈ items, strStartsWith it.name "." = false) ∧
      List.Perm (items.map (fun it => it.name))
        (((childPaths fs dir_path).filter (fun q =>
            show_hidden || !(strStartsWith (baseName q) "."))).map baseName) ∧
      (∀ (realpath : String → String) (now : Nat)
          (ctx : ConversationContext),
        (ConversationContext.track_list_result realpath now ctx dir_path
            items).1.map (fun e => e.absolute_path) =
          (items.filter (fun it => it.name ≠ "")).map
            (fun it => realpath (joinPath dir_path it.name)) ∧
        ((ConversationContext.track_list_result realpath now ctx dir_path
            items).1 ≠ [] →
          ∃ sel, (ConversationContext.track_list_result realpath now ctx
                dir_path items).2.store.get_current_selection = some sel ∧
            sel.kind = EntityKind.selection ∧
            sel.selection_ids = (ConversationContext.track_list_result
              realpath now ctx dir_path items).1.map (fun e => e.id))) ∧
      (∀ (st : EntityStore) (sel : Entity),
        st.get_current_selection = some sel →
        sel.kind = EntityKind.selection →
        st.get_selection_items sel.id =
          sel.selection_ids.filterMap st.get) := by
  intro items hout
  have hitems : items = (((childPaths fs dir_path).insertionSort
      childLe).filter (fun q =>
        show_hidden || !(strStartsWith (baseName q) "."))).map
      (fun q =>
        { name := baseName q
          type := if fs.isDir q then "dir" else "file"
          size_bytes := if fs.isFile q then fs.fileSize q else 0 }) := by
    unfold list_directory at hout
    rw [hA] at hout
    dsimp only at hout
    rw [hE, hD] at hout
    simp only [Bool.not_true, Bool.false_eq_true, if_false] at hout
    simp only [ToolOutput.listOut.injEq] at hout
    exact hout.2.symm
  subst hitems
  refine ⟨?_, ?_, ?_, ?_, ?_⟩
  · have hsort : ((childPaths fs dir_path).insertionSort childLe).Pairwise
        childLe := List.sorted_insertionSort childLe _
    have hfil := hsort.filter (fun q =>
      show_hidden || !(strStartsWith (baseName q) "."))
    exact hfil.map _ (fun a b h => (listLeB_le _ _).mp h)
  · intro hsh it hit
    subst hsh
    obtain ⟨q, hq, rfl⟩ := List.mem_map.mp hit
    have hp := (List.mem_filter.mp hq).2
    simpa using hp
  · rw [List.map_map]
    show List.Perm ((((childPaths fs dir_path).insertionSort childLe).filter
        (fun q => show_hidden || !(strStartsWith (baseName q) "."))).map
          baseName) _
    exact ((List.perm_insertionSort childLe _).filter _).map baseName
  · intro realpath now ctx
    constructor
    · rw [track_list_result_fst]
      exact trackListItems_abs realpath now dir_path _ ctx
    · exact track_list_result_selection realpath now ctx dir_path _
  · exact fun st sel h hk => selection_items_in_stored_order st sel h hk

/-- Closed instance of C9 on the filesystem `fsList`: the listing of
`/tmp/l` is `[a, b.txt]` (sorted, the dotfile `.h` excluded), and tracking
it persists a SELECTION over exactly those entities in that order. -/
theorem list_directory_order_drives_selection_witness :
    (list_directory id "/home/u" fsList "/tmp/l" false).1.output =
      ToolOutput.listOut "/tmp/l"
        [⟨"a", "dir", 0⟩, ⟨"b.txt", "file", 1⟩] ∧
    ([⟨"a", "dir", 0⟩, ⟨"b.txt", "file", 1⟩] : List ListItem).Pairwise
      (fun a b => a.name ≤ b.name) ∧
    (∀ it ∈ ([⟨"a", "dir", 0⟩, ⟨"b.txt", "file", 1⟩] : List ListItem),
      strStartsWith it.name "." = false) ∧
    (ConversationContext.track_list_result id 5 {} "/tmp/l"
        [⟨"a", "dir", 0⟩, ⟨"b.txt", "file", 1⟩]).1.map
      (fun e => e.absolute_path) = ["/tmp/l/a", "/tmp/l/b.txt"] ∧
    ∃ sel, (ConversationContext.track_list_result id 5 {} "/tmp/l"
          [⟨"a", "dir", 0⟩, ⟨"b.txt", "file", 1⟩]).2.store.get_current_selection
        = some sel ∧
      sel.kind = EntityKind.selection ∧
      sel.selection_ids = (ConversationContext.track_list_result id 5 {}
        "/tmp/l" [⟨"a", "dir", 0⟩, ⟨"b.txt", "file", 1⟩]).1.map
          (fun e => e.id) := by
  have h := list_directory_order_drives_selection id "/home/u" fsList
    "/tmp/l" "/tmp/l" false (by decide) (by decide) (by decide)
    [⟨"a", "dir", 0⟩, ⟨"b.txt", "file", 1⟩] (by decide)
  refine ⟨by decide, h.1, h.2.1 rfl, ?_, ?_⟩
  · exact (h.2.2.2.1 id 5 {}).1.trans (by decide)
  · exact (h.2.2.2.1 id 5 {}).2 (by decide)

end Leonard
